import Mathlib

set_option maxRecDepth 20000

namespace AiReadiness

/-! Shallow embedding of the AI-readiness scoring engine of
    `src/app/api/ai-readiness/route.ts`.  JS strings are modelled as Lean
    strings (lists of characters), JS numbers as rationals, and the JS
    regular expressions used by the analyzers as values of a small
    regular-expression datatype with a backtracking matcher that follows
    JS semantics: leftmost match, greedy/lazy alternative priority, and
    global scanning with non-overlapping matches advancing one position
    on an empty match. -/

/-- Whitespace characters matched by the JS character class `\s`
    (restricted to ASCII, which covers all inputs considered here). -/
def isWsChar (c : Char) : Bool :=
  c = ' ' || c = '\t' || c = '\n' || c = '\r' || c = '\x0b' || c = '\x0c'

/-- ASCII lower-casing, modelling `String.prototype.toLowerCase` on the
    ASCII inputs the engine handles. -/
def lowerOf (s : String) : String := ⟨s.data.map Char.toLower⟩

/-- Does `s` start with the character list `pat`? -/
def chStarts : List Char → List Char → Bool
  | [], _ => true
  | _ :: _, [] => false
  | p :: ps, c :: cs => p == c && chStarts ps cs

/-- Does `s` contain `pat` as a contiguous substring?  Models
    `String.prototype.includes`. -/
def chHas (pat : List Char) : List Char → Bool
  | [] => pat.isEmpty
  | c :: cs => chStarts pat (c :: cs) || chHas pat cs

/-- `incl pat s` models `s.includes(pat)` (case sensitive). -/
def incl (pat s : String) : Bool := chHas pat.data s.data

/-- Does `s` end with the character list `pat`?  Models
    `String.prototype.endsWith`. -/
def chEnds (pat s : List Char) : Bool := chStarts pat.reverse s.reverse

/-- Fuelled counter of non-overlapping occurrences of the literal `pat`,
    scanning left to right and skipping past each match, as a JS global
    regex made of plain characters does. -/
def countOccF (pat : List Char) : ℕ → List Char → ℕ
  | 0, _ => 0
  | _, [] => 0
  | f + 1, c :: cs =>
    if chStarts pat (c :: cs) then 1 + countOccF pat f ((c :: cs).drop pat.length)
    else countOccF pat f cs

/-- `countOcc pat s` models `(s.match(/pat/g) || []).length` for a literal
    pattern `pat`. -/
def countOcc (pat s : String) : ℕ := countOccF pat.data s.data.length s.data

/-- Remove the first occurrence of `pat` from `s`, modelling
    `s.replace(pat, '')` with a literal (non-global) pattern. -/
def replFirstF (pat : List Char) : ℕ → List Char → List Char
  | 0, s => s
  | _ + 1, [] => []
  | f + 1, c :: cs =>
    if chStarts pat (c :: cs) then (c :: cs).drop pat.length
    else c :: replFirstF pat f cs

/-- `replaceFirst pat s` models `s.replace(pat, '')`. -/
def replaceFirst (pat s : String) : String := ⟨replFirstF pat.data s.data.length s.data⟩

/-- Single pass splitter underlying `jsSplitRuns`: `prevSep` records
    whether the previous character belonged to a separator run, `cur` is
    the (reversed) fragment being accumulated. -/
def jsSplitAux (isSep : Char → Bool) : Bool → List Char → List Char → List (List Char)
  | _, cur, [] => [cur.reverse]
  | prevSep, cur, c :: cs =>
    if isSep c then
      if prevSep then jsSplitAux isSep true cur cs
      else cur.reverse :: jsSplitAux isSep true [] cs
    else jsSplitAux isSep false (c :: cur) cs

/-- `jsSplitRuns isSep s` models `s.split(/[sep]+/)`: fragments between
    maximal runs of separator characters, keeping empty fragments at the
    boundaries exactly as JS does. -/
def jsSplitRuns (isSep : Char → Bool) (s : List Char) : List (List Char) :=
  jsSplitAux isSep false [] s

/-- Helper for `countRuns`: `inRun` records whether the previous character
    satisfied `p`. -/
def countRunsAux (p : Char → Bool) : Bool → List Char → ℕ
  | _, [] => 0
  | inRun, c :: cs =>
    if p c then (if inRun then countRunsAux p true cs else 1 + countRunsAux p true cs)
    else countRunsAux p false cs

/-- Number of maximal runs of characters satisfying `p`, which is the
    number of matches of the JS global regex `/[p]+/g`. -/
def countRuns (p : Char → Bool) (l : List Char) : ℕ := countRunsAux p false l

/-- `trimList` models `String.prototype.trim`: drop whitespace from both
    ends. -/
def trimList (l : List Char) : List Char :=
  ((l.dropWhile isWsChar).reverse.dropWhile isWsChar).reverse

/-- `jsRound q` models `Math.round(q)`: round half away from zero towards
    positive infinity, i.e. `⌊q + 1/2⌋`. -/
def jsRound (q : ℚ) : ℤ := ⌊q + 1 / 2⌋

/-- JS truthiness of an optional string field (`undefined` and `''` are
    falsy, every other string is truthy). -/
def jsTruthy : Option String → Bool
  | none => false
  | some s => !s.isEmpty

/-! Regular expressions.  The datatype covers exactly the constructs the
    source regexes use: literals (optionally case-insensitive), character
    classes (optionally negated), sequencing, alternation and star
    (greedy or lazy).  `+` and `?` are derived. -/

inductive RE where
  | emp : RE
  | lit : List Char → Bool → RE
  | cls : Bool → List Char → RE
  | seq : RE → RE → RE
  | alt : RE → RE → RE
  | star : RE → Bool → RE

/-- Greedy `?`: try the body first, the empty alternative second. -/
def reOpt (a : RE) : RE := .alt a .emp

/-- Greedy `+`: one occurrence followed by a greedy star. -/
def rePlus (a : RE) : RE := .seq a (.star a false)

/-- Sequence a list of regexes. -/
def reCat (l : List RE) : RE := l.foldr .seq .emp

/-- Case-insensitive literal (for regexes carrying the `i` flag). -/
def litCI (s : String) : RE := .lit s.data true

/-- Case-sensitive literal. -/
def litCS (s : String) : RE := .lit s.data false

/-- Positive character class `[…]`. -/
def clsOf (s : String) : RE := .cls false s.data

/-- Negated character class `[^…]`. -/
def clsNeg (s : String) : RE := .cls true s.data

/-- The class `[\s\S]`: any character. -/
def reAny : RE := .cls true []

/-- The metacharacter `.` without the `s` flag: any character except line
    terminators. -/
def reDot : RE := .cls true ['\n', '\r']

/-- The class `\s`. -/
def reWs : RE := .cls false [' ', '\t', '\n', '\r', '\x0b', '\x0c']

/-- Case-insensitive character comparison. -/
def chEqCI (a b : Char) : Bool := a.toLower == b.toLower

/-- Strip a literal from the front of the input, case-insensitively when
    `ci` is set. -/
def stripLit (ci : Bool) : List Char → List Char → Option (List Char)
  | [], s => some s
  | _ :: _, [] => none
  | p :: ps, c :: cs => if (if ci then chEqCI p c else p == c) then stripLit ci ps cs else none

/-- Membership in a (possibly negated) character class. -/
def clsMem (neg : Bool) (set : List Char) (c : Char) : Bool :=
  if neg then !(set.contains c) else set.contains c

/-- Structural size of a regex, used to compute matcher fuel. -/
def reSize : RE → ℕ
  | .emp => 1
  | .lit l _ => l.length + 1
  | .cls _ _ => 1
  | .seq a b => reSize a + reSize b + 1
  | .alt a b => reSize a + reSize b + 1
  | .star a _ => reSize a + 1

/-- Fuelled CPS backtracking matcher.  `reM f re s k` tries to match `re`
    at the start of `s` and passes the remainder to the continuation `k`;
    alternatives are explored in JS priority order (left alternative
    first, greedy star consumes first / lazy star yields first), so the
    first success is the match JS would select.  A star iteration must
    consume input, as in JS. -/
def reM : ℕ → RE → List Char → (List Char → Option (List Char)) → Option (List Char)
  | 0, _, _, _ => none
  | _ + 1, .emp, s, k => k s
  | _ + 1, .lit cs ci, s, k =>
    match stripLit ci cs s with
    | some r => k r
    | none => none
  | _ + 1, .cls neg set, s, k =>
    match s with
    | [] => none
    | c :: rest => if clsMem neg set c then k rest else none
  | f + 1, .seq a b, s, k => reM f a s (fun r => reM f b r k)
  | f + 1, .alt a b, s, k =>
    match reM f a s k with
    | some r => some r
    | none => reM f b s k
  | f + 1, .star a lz, s, k =>
    if lz then
      match k s with
      | some r => some r
      | none => reM f a s (fun r => if r.length < s.length then reM f (.star a lz) r k else none)
    else
      match reM f a s (fun r => if r.length < s.length then reM f (.star a lz) r k else none) with
      | some r => some r
      | none => k s

/-- Attempt a match of `re` anchored at the start of `s`; returns the
    remainder of the string after the selected match. -/
def reMatchAt (re : RE) (s : List Char) : Option (List Char) :=
  reM (s.length + reSize re + 8) re s some

/-- Fuelled global scan collecting the texts of all non-overlapping
    matches, as `String.prototype.match` with the `g` flag does. -/
def gScanF (re : RE) : ℕ → List Char → List (List Char)
  | 0, _ => []
  | f + 1, s =>
    match reMatchAt re s with
    | some r =>
      if r.length < s.length then s.take (s.length - r.length) :: gScanF re f r
      else
        match s with
        | [] => [[]]
        | _ :: cs => s.take (s.length - r.length) :: gScanF re f cs
    | none =>
      match s with
      | [] => []
      | _ :: cs => gScanF re f cs

/-- All matches of `re` in `s` (the texts), i.e. `s.match(/re/g) || []`. -/
def gScan (re : RE) (s : List Char) : List (List Char) := gScanF re (s.length + 1) s

/-- `(s.match(/re/g) || []).length`. -/
def gCount (re : RE) (s : String) : ℕ := (gScan re s.data).length

/-- Fuelled search for the first match, returning its text. -/
def reFindF (re : RE) : ℕ → List Char → Option (List Char)
  | 0, _ => none
  | f + 1, s =>
    match reMatchAt re s with
    | some r => some (s.take (s.length - r.length))
    | none =>
      match s with
      | [] => none
      | _ :: cs => reFindF re f cs

/-- Text of the first match of `re` in `s` (non-global `s.match(re)`). -/
def reFind (re : RE) (s : List Char) : Option (List Char) :=
  reFindF re (s.length + 1) s

/-- Boolean match test, `s.match(re) !== null`. -/
def reTest (re : RE) (s : String) : Bool := (reFind re s.data).isSome

/-- Fuelled global replace: each non-overlapping match is replaced by
    `repl`, as `String.prototype.replace` with the `g` flag does. -/
def gReplF (re : RE) (repl : List Char) : ℕ → List Char → List Char
  | 0, s => s
  | f + 1, s =>
    match reMatchAt re s with
    | some r =>
      if r.length < s.length then repl ++ gReplF re repl f r
      else
        match s with
        | [] => repl
        | c :: cs => repl ++ c :: gReplF re repl f cs
    | none =>
      match s with
      | [] => []
      | c :: cs => c :: gReplF re repl f cs

/-- `gReplace re repl s` models `s.replace(/re/g, repl)`. -/
def gReplace (re : RE) (repl : List Char) (s : List Char) : List Char :=
  gReplF re repl (s.length + 1) s

/-! Transcriptions of the JS regexes used by the analyzers.  Character
    classes under the `i` flag contain both cases.  In strings below,
    `\x27` is the apostrophe and `\x22` the double quote where needed. -/

/-- `/<h1[^>]*>/gi` -/
def reH1Open : RE := reCat [litCI "<h1", .star (clsNeg ">") false, litCS ">"]

/-- `/<h([1-6])[^>]*>/gi` (also `/<h[1-6][^>]*>/gi`, which matches the
    same strings). -/
def reHOpen : RE := reCat [litCI "<h", clsOf "123456", .star (clsNeg ">") false, litCS ">"]

/-- `/<details[^>]*>/gi` -/
def reDetailsOpen : RE := reCat [litCI "<details", .star (clsNeg ">") false, litCS ">"]

/-- `/content="([^"]*)"/i` -/
def reContentAttr : RE := reCat [litCI "content=\"", .star (clsNeg "\"") false, litCS "\""]

/-- `/what\s+is\s+[^.?]+\?/gi` -/
def reWhatIs : RE :=
  reCat [litCI "what", rePlus reWs, litCI "is", rePlus reWs, rePlus (clsNeg ".?"), litCS "?"]

/-- `/how\s+to\s+[^.?]+\?/gi` -/
def reHowTo : RE :=
  reCat [litCI "how", rePlus reWs, litCI "to", rePlus reWs, rePlus (clsNeg ".?"), litCS "?"]

/-- `/why\s+does\s+[^.?]+\?/gi` -/
def reWhyDoes : RE :=
  reCat [litCI "why", rePlus reWs, litCI "does", rePlus reWs, rePlus (clsNeg ".?"), litCS "?"]

/-- `/when\s+should\s+[^.?]+\?/gi` -/
def reWhenShould : RE :=
  reCat [litCI "when", rePlus reWs, litCI "should", rePlus reWs, rePlus (clsNeg ".?"), litCS "?"]

/-- `/where\s+can\s+[^.?]+\?/gi` -/
def reWhereCan : RE :=
  reCat [litCI "where", rePlus reWs, litCI "can", rePlus reWs, rePlus (clsNeg ".?"), litCS "?"]

/-- `/frequently\s+asked\s+questions?/gi` -/
def reFreqAsked : RE :=
  reCat [litCI "frequently", rePlus reWs, litCI "asked", rePlus reWs, litCI "question",
    reOpt (litCI "s")]

/-- `/common\s+questions?/gi` -/
def reCommonQ : RE := reCat [litCI "common", rePlus reWs, litCI "question", reOpt (litCI "s")]

/-- `/q&a|q\s*&\s*a/gi` -/
def reQandA : RE :=
  .alt (litCI "q&a") (reCat [litCI "q", .star reWs false, litCS "&", .star reWs false, litCI "a"])

/-- The eight FAQ content patterns, in source order. -/
def faqPatterns : List RE :=
  [reWhatIs, reHowTo, reWhyDoes, reWhenShould, reWhereCan, reFreqAsked, reCommonQ, reQandA]

/-- `/<h[1-6][^>]*>.*?(faq|question|help|support).*?<\/h[1-6]>/gi` -/
def reFaqHeader : RE :=
  reCat [litCI "<h", clsOf "123456", .star (clsNeg ">") false, litCS ">",
    .star reDot true,
    .alt (litCI "faq") (.alt (litCI "question") (.alt (litCI "help") (litCI "support"))),
    .star reDot true, litCI "</h", clsOf "123456", litCS ">"]

/-- `/table\s+of\s+contents/gi` -/
def reTocText : RE := reCat [litCI "table", rePlus reWs, litCI "of", rePlus reWs, litCI "contents"]

/-- `/<nav[^>]*class[^>]*toc/gi` -/
def reTocNav : RE :=
  reCat [litCI "<nav", .star (clsNeg ">") false, litCI "class", .star (clsNeg ">") false,
    litCI "toc"]

/-- `/<ol[^>]*class[^>]*contents/gi` -/
def reTocOl : RE :=
  reCat [litCI "<ol", .star (clsNeg ">") false, litCI "class", .star (clsNeg ">") false,
    litCI "contents"]

/-- `/<ul[^>]*class[^>]*contents/gi` -/
def reTocUl : RE :=
  reCat [litCI "<ul", .star (clsNeg ">") false, litCI "class", .star (clsNeg ">") false,
    litCI "contents"]

/-- The table-of-contents patterns, in source order. -/
def tocPatterns : List RE := [reTocText, reTocNav, reTocOl, reTocUl]

/-- `/breadcrumb/gi` -/
def reBreadcrumbWord : RE := litCI "breadcrumb"

/-- `/<nav[^>]*aria-label[^>]*breadcrumb/gi` -/
def reBreadcrumbNav : RE :=
  reCat [litCI "<nav", .star (clsNeg ">") false, litCI "aria-label", .star (clsNeg ">") false,
    litCI "breadcrumb"]

/-- `/schema\.org\/BreadcrumbList/gi` -/
def reBreadcrumbSchema : RE := litCI "schema.org/BreadcrumbList"

/-- The breadcrumb patterns, in source order. -/
def breadcrumbPatterns : List RE := [reBreadcrumbWord, reBreadcrumbNav, reBreadcrumbSchema]

/-- `/<a[^>]+href=["'][^"']*#[^"']*["'][^>]*>/gi` -/
def reAnchorLink : RE :=
  reCat [litCI "<a", rePlus (clsNeg ">"), litCI "href=", clsOf "\"\x27",
    .star (clsNeg "\"\x27") false, litCS "#", .star (clsNeg "\"\x27") false, clsOf "\"\x27",
    .star (clsNeg ">") false, litCS ">"]

/-- `/related\s+(articles?|posts?|content|links?)/gi` -/
def reRelated : RE :=
  reCat [litCI "related", rePlus reWs,
    .alt (reCat [litCI "article", reOpt (litCI "s")])
      (.alt (reCat [litCI "post", reOpt (litCI "s")])
        (.alt (litCI "content") (reCat [litCI "link", reOpt (litCI "s")])))]

/-- `/see\s+also/gi` -/
def reSeeAlso : RE := reCat [litCI "see", rePlus reWs, litCI "also"]

/-- `/further\s+reading/gi` -/
def reFurtherReading : RE := reCat [litCI "further", rePlus reWs, litCI "reading"]

/-- `/more\s+resources?/gi` -/
def reMoreResources : RE := reCat [litCI "more", rePlus reWs, litCI "resource", reOpt (litCI "s")]

/-- The related-content patterns, in source order. -/
def relatedPatterns : List RE := [reRelated, reSeeAlso, reFurtherReading, reMoreResources]

/-- All ASCII letters: what `[A-Z]` and `[a-z]` match under the `i` flag. -/
def asciiLetters : String := "abcdefghijklmnopqrstuvwxyzABCDEFGHIJKLMNOPQRSTUVWXYZ"

/-- `/author|by\s+[A-Z][a-z]+\s+[A-Z][a-z]+/gi` (the classes are
    case-insensitive because of the `i` flag). -/
def reAuthorWord : RE :=
  .alt (litCI "author")
    (reCat [litCI "by", rePlus reWs, clsOf asciiLetters, rePlus (clsOf asciiLetters),
      rePlus reWs, clsOf asciiLetters, rePlus (clsOf asciiLetters)])

/-- `/<meta[^>]+name=["']author["'][^>]*>/gi` -/
def reMetaAuthor : RE :=
  reCat [litCI "<meta", rePlus (clsNeg ">"), litCI "name=", clsOf "\"\x27", litCI "author",
    clsOf "\"\x27", .star (clsNeg ">") false, litCS ">"]

/-- `/rel=["']author["']/gi` -/
def reRelAuthor : RE :=
  reCat [litCI "rel=", clsOf "\"\x27", litCI "author", clsOf "\"\x27"]

/-- `/itemprop=["']author["']/gi` -/
def reItempropAuthor : RE :=
  reCat [litCI "itemprop=", clsOf "\"\x27", litCI "author", clsOf "\"\x27"]

/-- The author patterns, in source order. -/
def authorPatterns : List RE := [reAuthorWord, reMetaAuthor, reRelAuthor, reItempropAuthor]

/-- `/<time[^>]*datetime/gi` -/
def reTimeDatetime : RE := reCat [litCI "<time", .star (clsNeg ">") false, litCI "datetime"]

/-- `/published|updated|modified/gi` -/
def rePubWords : RE := .alt (litCI "published") (.alt (litCI "updated") (litCI "modified"))

/-- `/<meta[^>]+property=["']article:(published_time|modified_time)["'][^>]*>/gi` -/
def reMetaArticleTime : RE :=
  reCat [litCI "<meta", rePlus (clsNeg ">"), litCI "property=", clsOf "\"\x27",
    litCI "article:", .alt (litCI "published_time") (litCI "modified_time"), clsOf "\"\x27",
    .star (clsNeg ">") false, litCS ">"]

/-- The date patterns, in source order. -/
def datePatterns : List RE := [reTimeDatetime, rePubWords, reMetaArticleTime]

/-- `/references?|sources?|citations?/gi` -/
def reCitationWords : RE :=
  .alt (reCat [litCI "reference", reOpt (litCI "s")])
    (.alt (reCat [litCI "source", reOpt (litCI "s")])
      (reCat [litCI "citation", reOpt (litCI "s")]))

/-- `/<a[^>]+rel=["']external["'][^>]*>/gi` -/
def reRelExternal : RE :=
  reCat [litCI "<a", rePlus (clsNeg ">"), litCI "rel=", clsOf "\"\x27", litCI "external",
    clsOf "\"\x27", .star (clsNeg ">") false, litCS ">"]

/-- `/according\s+to/gi` -/
def reAccordingTo : RE := reCat [litCI "according", rePlus reWs, litCI "to"]

/-- `/research\s+(shows?|indicates?)/gi` -/
def reResearchShows : RE :=
  reCat [litCI "research", rePlus reWs,
    .alt (reCat [litCI "show", reOpt (litCI "s")]) (reCat [litCI "indicate", reOpt (litCI "s")])]

/-- The citation patterns, in source order. -/
def citationPatterns : List RE := [reCitationWords, reRelExternal, reAccordingTo, reResearchShows]

/-- `/certified|expert|specialist|professional/gi` -/
def reExpertWords : RE :=
  .alt (litCI "certified") (.alt (litCI "expert") (.alt (litCI "specialist") (litCI "professional")))

/-- `/years?\s+of\s+experience/gi` -/
def reYearsExp : RE :=
  reCat [litCI "year", reOpt (litCI "s"), rePlus reWs, litCI "of", rePlus reWs, litCI "experience"]

/-- `/PhD|doctorate|master's|bachelor's/gi` -/
def reDegrees : RE :=
  .alt (litCI "PhD") (.alt (litCI "doctorate") (.alt (litCI "master\x27s") (litCI "bachelor\x27s")))

/-- `/industry\s+(leader|expert|veteran)/gi` -/
def reIndustryExpert : RE :=
  reCat [litCI "industry", rePlus reWs, .alt (litCI "leader") (.alt (litCI "expert") (litCI "veteran"))]

/-- The expertise patterns, in source order. -/
def expertisePatterns : List RE := [reExpertWords, reYearsExp, reDegrees, reIndustryExpert]

/-- `/<script[^>]*>[\s\S]*?<\/script>/gi` -/
def reScriptBlock : RE :=
  reCat [litCI "<script", .star (clsNeg ">") false, litCS ">", .star reAny true, litCI "</script>"]

/-- `/<style[^>]*>[\s\S]*?<\/style>/gi` -/
def reStyleBlock : RE :=
  reCat [litCI "<style", .star (clsNeg ">") false, litCS ">", .star reAny true, litCI "</style>"]

/-- `/<[^>]+>/g` -/
def reTag : RE := reCat [litCS "<", rePlus (clsNeg ">"), litCS ">"]

/-- `/\s+/g` -/
def reWsRun : RE := rePlus reWs

/-- `/Sitemap:\s*(.+)/gi` -/
def reSitemapDirective : RE := reCat [litCI "Sitemap:", .star reWs false, rePlus reDot]

/-! The text extractor (`extractTextContent`, route.ts lines 41-59). -/

/-- `extractTextContent`: strip script and style blocks, replace the
    remaining tags by spaces, decode the six fixed entities, collapse
    whitespace and trim. -/
def extractTextContent (html : String) : String :=
  let s1 := gReplace reScriptBlock [] html.data
  let s2 := gReplace reStyleBlock [] s1
  let s3 := gReplace reTag [' '] s2
  let s4 := gReplace (litCS "&nbsp;") [' '] s3
  let s5 := gReplace (litCS "&amp;") ['&'] s4
  let s6 := gReplace (litCS "&lt;") ['<'] s5
  let s7 := gReplace (litCS "&gt;") ['>'] s6
  let s8 := gReplace (litCS "&quot;") ['"'] s7
  let s9 := gReplace (litCS "&#39;") ['\x27'] s8
  let s10 := gReplace reWsRun [' '] s9
  ⟨trimList s10⟩

/-! The readability estimator (`calculateReadability`, route.ts
    lines 19-38). -/

/-- Sentence separators: the class `[.!?]`. -/
def isSentSep (c : Char) : Bool := c = '.' || c = '!' || c = '?'

/-- Vowel letters, the class `[aeiouAEIOU]`. -/
def isVowelChar (c : Char) : Bool := "aeiouAEIOU".data.contains c

/-- `text.split(/[.!?]+/).filter(s => s.trim().length > 0)`. -/
def readabilitySentences (text : String) : List (List Char) :=
  (jsSplitRuns isSentSep text.data).filter (fun s => !(trimList s).isEmpty)

/-- `text.split(/\s+/).filter(w => w.length > 0)`. -/
def readabilityWords (text : String) : List (List Char) :=
  (jsSplitRuns isWsChar text.data).filter (fun w => !w.isEmpty)

/-- One step of the syllable reduce,
    `acc + (word.match(/[aeiouAEIOU]+/g) || []).length || 1`: JS `+`
    binds tighter than `||`, so this is `(acc + count) || 1` — the new
    running total is `acc + count`, replaced by 1 when that total is
    zero.  A zero-vowel word therefore contributes 1 only while the
    running total is still zero and nothing afterwards. -/
def syllableStep (acc : ℕ) (w : List Char) : ℕ :=
  let n := acc + countRuns isVowelChar w
  if n = 0 then 1 else n

/-- `words.reduce((acc, word) => acc + (word.match(/[aeiouAEIOU]+/g) || []).length || 1, 0)`. -/
def syllablesOf (words : List (List Char)) : ℕ :=
  words.foldl syllableStep 0

/-- `calculateReadability`: the Flesch Reading Ease approximation,
    returning 0 when there are no sentences or no words, and otherwise
    the formula clamped into `[0, 100]`. -/
def calculateReadability (text : String) : ℚ :=
  let sentences := readabilitySentences text
  let words := readabilityWords text
  let syllables := syllablesOf words
  if sentences.length = 0 || words.length = 0 then 0
  else
    let avgWordsPerSentence : ℚ := (words.length : ℚ) / (sentences.length : ℚ)
    let avgSyllablesPerWord : ℚ := (syllables : ℚ) / (words.length : ℚ)
    let score := 206.835 - 1.015 * avgWordsPerSentence - 84.6 * avgSyllablesPerWord
    max 0 (min 100 score)

/-! Data model. -/

/-- Check status. -/
inductive Status where
  | pass : Status
  | warning : Status
  | fail : Status
deriving DecidableEq

/-- The `CheckResult` interface (route.ts lines 8-16); scores are
    rationals. -/
structure CheckResult where
  id : String
  label : String
  status : Status
  score : ℚ
  details : String
  recommendation : String
  actionItems : List String

/-- Page metadata supplied by the scraping collaborator. -/
structure Metadata where
  title : Option String := none
  description : Option String := none
  ogTitle : Option String := none
  ogDescription : Option String := none
  author : Option String := none

/-- Output of the recommendation generator. -/
structure RecOut where
  recommendation : String
  actionItems : List String

/-- The `issues` argument of the recommendation generator (only
    `h1Count` is ever read). -/
structure RecIssues where
  h1Count : ℕ := 0

/-- The `data` argument of the recommendation generator (only these
    fields are ever read; absent fields are `none`). -/
structure RecData where
  score : Option ℚ := none
  hasTitle : Bool := false
  hasDescription : Bool := false
  hasAuthor : Bool := false
  imgCount : Option ℕ := none

/-- `data?.imgCount > 0` (false when the field is absent). -/
def imgCountPos (data : RecData) : Bool :=
  match data.imgCount with
  | some n => decide (0 < n)
  | none => false

/-- `getSpecificRecommendations` (route.ts lines 62-279). -/
def getSpecificRecommendations (checkId : String) (issues : RecIssues) (data : RecData) : RecOut :=
  if checkId = "heading-structure" then
    if issues.h1Count = 0 then
      { recommendation := "Add exactly one H1 tag to clearly define your main topic for AI systems",
        actionItems :=
          ["Add a single <h1> tag with your primary page topic",
           "Use H2 tags for main sections, H3 for subsections",
           "Ensure logical hierarchy: H1 → H2 → H3 (don\x27t skip levels)",
           "Keep headings descriptive and keyword-rich"] }
    else if 1 < issues.h1Count then
      { recommendation := "Reduce to exactly one H1 tag to avoid confusing AI about your main topic",
        actionItems :=
          ["Convert " ++ toString (issues.h1Count - 1) ++ " extra H1 tags to H2 or H3",
           "Keep the most important topic as your single H1",
           "Use H2 tags for equal-weight sections",
           "Maintain logical heading hierarchy"] }
    else
      { recommendation := "Fix heading hierarchy gaps to help AI understand your content structure",
        actionItems :=
          ["Don\x27t skip heading levels (e.g., H1 → H3)",
           "Use sequential heading levels (H1 → H2 → H3)",
           "Group related content under appropriate heading levels",
           "Make headings descriptive of the content that follows"] }
  else if checkId = "readability" then
    if data.score.getD 0 < 30 then
      { recommendation := "Significantly simplify your writing to make it more accessible to AI and users",
        actionItems :=
          ["Break long sentences into shorter ones (aim for 15-20 words)",
           "Replace complex words with simpler alternatives",
           "Use active voice instead of passive voice",
           "Add bullet points and numbered lists",
           "Include more white space and paragraph breaks"] }
    else
      { recommendation := "Improve readability with clearer structure and simpler language",
        actionItems :=
          ["Shorten sentences where possible",
           "Use more common words when available",
           "Add subheadings to break up long sections",
           "Include bullet points for lists",
           "Use shorter paragraphs (3-4 sentences max)"] }
  else if checkId = "meta-tags" then
    let missing : List String :=
      (if !data.hasTitle then ["title"] else []) ++
      (if !data.hasDescription then ["description"] else []) ++
      (if !data.hasAuthor then ["author"] else [])
    { recommendation := "Add essential metadata to help AI understand your page context and purpose",
      actionItems :=
        [if missing.contains "title" then "Add a descriptive <title> tag (50-60 characters)" else "",
         if missing.contains "description" then "Add a meta description (120-160 characters)" else "",
         if missing.contains "author" then "Add author information for content attribution" else "",
         "Include Open Graph tags for better social sharing",
         "Add structured data (JSON-LD) for rich snippets"].filter (fun s => !s.isEmpty) }
  else if checkId = "semantic-html" then
    { recommendation := "Use semantic HTML5 elements to help AI understand your content structure and meaning",
      actionItems :=
        ["Replace <div class=\"header\"> with <header>",
         "Use <main> for primary content area",
         "Wrap navigation in <nav> elements",
         "Use <article> for standalone content pieces",
         "Add <section> for distinct content areas",
         "Include <aside> for sidebar content"] }
  else if checkId = "accessibility" then
    { recommendation := "Improve accessibility to help both users and AI systems understand your content",
      actionItems :=
        [if imgCountPos data then "Add descriptive alt text to all images" else "",
         "Add ARIA labels to interactive elements",
         "Include proper heading hierarchy",
         "Ensure sufficient color contrast",
         "Add lang attribute to html tag",
         "Use semantic HTML elements"].filter (fun s => !s.isEmpty) }
  else if checkId = "robots-txt" then
    { recommendation := "Create a robots.txt file to guide AI crawlers and search engines",
      actionItems :=
        ["Create /robots.txt in your website root",
         "Allow access for AI crawlers (GPTBot, CCBot, etc.)",
         "Include sitemap location",
         "Block sensitive directories if needed"] }
  else if checkId = "sitemap" then
    { recommendation := "Generate an XML sitemap to help AI systems discover and index your content",
      actionItems :=
        ["Create an XML sitemap with all important pages",
         "Include lastmod dates for content freshness",
         "Add priority values for important pages",
         "Submit sitemap to search engines",
         "Reference sitemap in robots.txt"] }
  else if checkId = "llms-txt" then
    { recommendation := "Add an llms.txt file to explicitly define how AI should interact with your content",
      actionItems :=
        ["Create /llms.txt in your website root",
         "Specify which content AI can use",
         "Include usage permissions and restrictions",
         "Add contact information for questions",
         "Reference your terms of service"] }
  else if checkId = "faq-structure" then
    if data.score.getD 0 < 30 then
      { recommendation := "Add a comprehensive FAQ section to provide clear question-answer pairs for AI training",
        actionItems :=
          ["Create a dedicated FAQ page or section",
           "Structure questions with clear, descriptive headings",
           "Use HTML details/summary elements for expandable FAQs",
           "Add FAQ schema markup for better search visibility",
           "Include 10+ commonly asked questions about your topic"] }
    else
      { recommendation := "Enhance your existing FAQ structure with schema markup and more comprehensive questions",
        actionItems :=
          ["Add FAQ schema markup to existing questions",
           "Expand FAQ with more detailed answers",
           "Group related questions into categories",
           "Add search functionality for large FAQ sections"] }
  else if checkId = "content-structure" then
    if data.score.getD 0 < 50 then
      { recommendation := "Improve content organization to help AI understand your knowledge structure",
        actionItems :=
          ["Add a table of contents for long articles",
           "Create logical section hierarchies with proper headings",
           "Implement breadcrumb navigation",
           "Add \"Related Articles\" sections with internal links",
           "Use clear section dividers and navigation aids"] }
    else
      { recommendation := "Your content structure is good - consider adding advanced organization features",
        actionItems :=
          ["Add jump-to-section navigation for very long content",
           "Implement content categorization and tagging",
           "Consider adding a site-wide content index"] }
  else if checkId = "topical-authority" then
    if data.score.getD 0 < 60 then
      { recommendation := "Establish stronger topical authority and expertise signals",
        actionItems :=
          ["Add detailed author bios with credentials",
           "Include publication and last-updated dates",
           "Add citations and references to external sources",
           "Create comprehensive, in-depth content",
           "Show expertise through detailed explanations and examples"] }
    else
      { recommendation := "Strong authority signals detected - maintain and expand your expertise",
        actionItems :=
          ["Keep content updated with latest industry changes",
           "Continue building author credibility",
           "Add more comprehensive references and citations"] }
  else
    { recommendation := "Improve this aspect for better AI compatibility",
      actionItems := ["Review and optimize this metric"] }

/-! The HTML metric analyzers (`analyzeHTML` and the three dedicated
    analyzer functions, route.ts lines 282-739). -/

/-- `(html.match(/<h1[^>]*>/gi) || []).length`. -/
def h1CountOf (html : String) : ℕ := gCount reH1Open html

/-- The heading levels in document order: each match of
    `/<h([1-6])[^>]*>/gi` contributes the digit captured at index 2 of
    the matched text (`h.match(/<h([1-6])/i)?.[1]`, with fallback 0). -/
def headingLevelsOf (html : String) : List ℕ :=
  (gScan reHOpen html.data).map (fun m =>
    match m[2]? with
    | some c => c.toNat - '0'.toNat
    | none => 0)

/-- Number of adjacent pairs whose level jumps by more than 1
    (`headingLevels[i] - headingLevels[i-1] > 1`). -/
def countJumps : List ℕ → ℕ
  | a :: b :: rest => (if a + 1 < b then 1 else 0) + countJumps (b :: rest)
  | _ => 0

/-- Issue strings recorded for each skipped heading level. -/
def jumpIssues : List ℕ → List String
  | a :: b :: rest =>
    (if a + 1 < b then ["Skipped heading level (H" ++ toString a ++ " → H" ++ toString b ++ ")"]
     else []) ++ jumpIssues (b :: rest)
  | _ => []

/-- The heading-structure check (route.ts lines 288-326).  Start at 100,
    −40 when there is no `<h1>`, −30 when there is more than one, −15
    per skipped level, floored at 0. -/
def headingCheckOf (html : String) : CheckResult :=
  let h1Count := h1CountOf html
  let headingLevels := headingLevelsOf html
  let s0 : ℚ := 100
  let s1 := if h1Count = 0 then s0 - 40 else if 1 < h1Count then s0 - 30 else s0
  let s2 := s1 - 15 * (countJumps headingLevels : ℚ)
  let headingScore := max 0 s2
  let headingIssues :=
    (if h1Count = 0 then ["No H1 found"]
     else if 1 < h1Count then ["Multiple H1s (" ++ toString h1Count ++ ") create topic ambiguity"]
     else []) ++ jumpIssues headingLevels
  let rc := getSpecificRecommendations "heading-structure" { h1Count := h1Count }
    { score := some headingScore }
  { id := "heading-structure", label := "Heading Hierarchy",
    status := if 80 ≤ headingScore then .pass else if 50 ≤ headingScore then .warning else .fail,
    score := headingScore,
    details :=
      if !headingIssues.isEmpty then String.intercalate ", " headingIssues
      else "Perfect hierarchy with " ++ toString h1Count ++ " H1 and logical structure",
    recommendation := rc.recommendation, actionItems := rc.actionItems }

/-- The readability check (route.ts lines 328-363): the raw Flesch score
    is mapped to the bucket score 100/80/50/20 with thresholds
    ≥70/≥50/≥30, and the status tracks the bucket. -/
def readabilityCheckOfText (text : String) : CheckResult :=
  let readabilityScore := calculateReadability text
  let bucket : ℚ × Status × String :=
    if 70 ≤ readabilityScore then
      (100, .pass, "Very readable (Flesch: " ++ toString (jsRound readabilityScore) ++ ")")
    else if 50 ≤ readabilityScore then
      (80, .pass, "Good readability (Flesch: " ++ toString (jsRound readabilityScore) ++ ")")
    else if 30 ≤ readabilityScore then
      (50, .warning, "Difficult to read (Flesch: " ++ toString (jsRound readabilityScore) ++ ")")
    else
      (20, .fail, "Very difficult (Flesch: " ++ toString (jsRound readabilityScore) ++ ")")
  let rc := getSpecificRecommendations "readability" {} { score := some readabilityScore }
  { id := "readability", label := "Content Readability",
    status := bucket.2.1, score := bucket.1, details := bucket.2.2,
    recommendation := rc.recommendation, actionItems := rc.actionItems }

/-- `metadata?.ogTitle || metadata?.title || html.includes('og:title') || html.includes('<title')`. -/
def hasOgTitleOf (html : String) (md : Metadata) : Bool :=
  jsTruthy md.ogTitle || jsTruthy md.title || incl "og:title" html || incl "<title" html

/-- `metadata?.ogDescription || metadata?.description || html.includes('og:description') || html.includes('name="description"')`. -/
def hasOgDescriptionOf (html : String) (md : Metadata) : Bool :=
  jsTruthy md.ogDescription || jsTruthy md.description || incl "og:description" html ||
    incl "name=\"description\"" html

/-- Length of the first `content="..."` attribute value in the document
    (`html.match(/content="([^"]*)"/i)?.[1]?.length || 0`); the matched
    text is `content="` + value + `"`, so the value has its length
    minus 10. -/
def descLengthOf (html : String) : ℕ :=
  match reFind reContentAttr html.data with
  | some m => m.length - 10
  | none => 0

/-- `html.includes('name="author"') || html.includes('property="article:author"')`. -/
def hasAuthorMetaOf (html : String) : Bool :=
  incl "name=\"author\"" html || incl "property=\"article:author\"" html

/-- `html.includes('property="article:published_time"') || html.includes('property="article:modified_time"')`. -/
def hasPublishDateOf (html : String) : Bool :=
  incl "property=\"article:published_time\"" html || incl "property=\"article:modified_time\"" html

/-- The meta-tags check (route.ts lines 365-427). -/
def metaCheckOf (html : String) (md : Metadata) : CheckResult :=
  let hasOgTitle := hasOgTitleOf html md
  let hasOgDescription := hasOgDescriptionOf html md
  let descLength := descLengthOf html
  let hasGoodDescLength := decide (70 ≤ descLength) && decide (descLength ≤ 160)
  let hasAuthor := hasAuthorMetaOf html
  let hasPublishDate := hasPublishDateOf html
  let m1 : ℚ := 30
  let m2 := if hasOgTitle then m1 + 30 else if incl "<title" html then m1 + 20 else m1
  let m3 := if hasOgDescription then (if hasGoodDescLength then m2 + 25 + 10 else m2 + 25) else m2
  let m4 := if hasAuthor then m3 + 10 else m3
  let m5 := if hasPublishDate then m4 + 10 else m4
  let metaScore := min 100 m5
  let metaDetails :=
    (if hasOgTitle then ["Title ✓"] else if incl "<title" html then ["Basic title"] else []) ++
    (if hasOgDescription then (if hasGoodDescLength then ["Description ✓"] else ["Description"])
     else []) ++
    (if hasAuthor then ["Author ✓"] else []) ++
    (if hasPublishDate then ["Date ✓"] else [])
  let rc := getSpecificRecommendations "meta-tags" {}
    { hasTitle := hasOgTitle, hasDescription := hasOgDescription, hasAuthor := hasAuthor }
  { id := "meta-tags", label := "Metadata Quality",
    status := if 70 ≤ metaScore then .pass else if 40 ≤ metaScore then .warning else .fail,
    score := metaScore,
    details := if !metaDetails.isEmpty then String.intercalate ", " metaDetails
               else "Missing critical metadata",
    recommendation := rc.recommendation, actionItems := rc.actionItems }

/-- The seven semantic HTML5 tag openers looked for by `analyzeHTML`. -/
def semanticTagsList : List String :=
  ["<article", "<nav", "<main", "<section", "<header", "<footer", "<aside"]

/-- How many of the seven semantic tags occur in the page. -/
def semanticCountOf (html : String) : ℕ :=
  (semanticTagsList.filter (fun t => incl t html)).length

/-- `html.includes('role="') || html.includes('aria-')`. -/
def hasAriaRolesOf (html : String) : Bool := incl "role=\"" html || incl "aria-" html

/-- `html.includes('__next') || html.includes('_app') || html.includes('react') || html.includes('vue') || html.includes('svelte')`. -/
def isModernFrameworkOf (html : String) : Bool :=
  incl "__next" html || incl "_app" html || incl "react" html || incl "vue" html ||
    incl "svelte" html

/-- The semantic-html check (route.ts lines 429-453). -/
def semanticCheckOf (html : String) : CheckResult :=
  let semanticCount := semanticCountOf html
  let semanticScore : ℚ :=
    min 100 ((semanticCount : ℚ) / 5 * 60 + (if hasAriaRolesOf html then 20 else 0) +
      (if isModernFrameworkOf html then 20 else 0))
  let rc := getSpecificRecommendations "semantic-html" {} { score := some semanticScore }
  { id := "semantic-html", label := "Semantic HTML",
    status := if 80 ≤ semanticScore then .pass else if 40 ≤ semanticScore then .warning else .fail,
    score := semanticScore,
    details := "Found " ++ toString semanticCount ++ " semantic HTML5 elements",
    recommendation := rc.recommendation, actionItems := rc.actionItems }

/-- The accessibility check (route.ts lines 455-488).  The status is
    derived from the unrounded score; the stored score is rounded. -/
def accessibilityCheckOf (html : String) : CheckResult :=
  let hasAltText := countOcc "alt=\"" html
  let imgCount := countOcc "<img" html
  let altTextRatio : ℚ := if 0 < imgCount then ((hasAltText : ℚ) / (imgCount : ℚ)) * 100 else 100
  let hasAriaLabels := incl "aria-label" html
  let hasAriaDescribedBy := incl "aria-describedby" html
  let hasRole := incl "role=\"" html
  let hasLangAttribute := incl "lang=\"" html
  let imageScore : ℚ := if imgCount = 0 then 40 else altTextRatio * 0.4
  let accessibilityScore : ℚ :=
    min 100 (imageScore + (if hasAriaLabels then 20 else 0) +
      (if hasAriaDescribedBy then 10 else 0) + (if hasRole then 15 else 0) +
      (if hasLangAttribute then 15 else 0))
  let rc := getSpecificRecommendations "accessibility" {} { imgCount := some imgCount }
  { id := "accessibility", label := "Accessibility",
    status := if 80 ≤ accessibilityScore then .pass
              else if 50 ≤ accessibilityScore then .warning else .fail,
    score := (jsRound accessibilityScore : ℚ),
    details := toString (jsRound altTextRatio) ++ "% images have alt text, ARIA labels: " ++
      (if hasAriaLabels then "Yes" else "No"),
    recommendation := rc.recommendation, actionItems := rc.actionItems }

/-- Total number of matches of the eight FAQ question patterns in the
    extracted text. -/
def faqQuestionCountOf (text : String) : ℕ := (faqPatterns.map (fun p => gCount p text)).sum

/-- `analyzeFAQStructure` (route.ts lines 507-569). -/
def faqCheckOf (html text : String) : CheckResult :=
  let hasFAQSchema := incl "schema.org/FAQPage" html || incl "schema.org/Question" html
  let detailsCount := gCount reDetailsOpen html
  let questionCount := faqQuestionCountOf text
  let faqHeaderCount := gCount reFaqHeader html
  let sc1 : ℚ := if hasFAQSchema then 30 else 0
  let sc2 := sc1 + (if 0 < detailsCount then min 25 ((detailsCount : ℚ) * 5) else 0)
  let sc3 := sc2 + (if 0 < questionCount then min 35 ((questionCount : ℚ) * 3) else 0)
  let sc4 := sc3 + (if 0 < faqHeaderCount then 10 else 0)
  let score := min 100 sc4
  let detailsList :=
    (if hasFAQSchema then ["FAQ schema markup found"] else []) ++
    (if 0 < detailsCount then [toString detailsCount ++ " expandable FAQ items found"] else []) ++
    (if 0 < questionCount then [toString questionCount ++ " question-answer patterns detected"]
     else []) ++
    (if 0 < faqHeaderCount then ["FAQ section headers found"] else [])
  let rc := getSpecificRecommendations "faq-structure" {} { score := some score }
  { id := "faq-structure", label := "FAQ & Q&A Structure",
    status := if 70 ≤ score then .pass else if 40 ≤ score then .warning else .fail,
    score := score,
    details := if !detailsList.isEmpty then String.intercalate ", " detailsList
               else "No FAQ structure detected",
    recommendation := rc.recommendation, actionItems := rc.actionItems }

/-- `analyzeContentStructure` (route.ts lines 572-645). -/
def contentStructureCheckOf (html text : String) : CheckResult :=
  let hasTOC := tocPatterns.any (fun p => reTest p html)
  let hasBreadcrumbs := breadcrumbPatterns.any (fun p => reTest p html)
  let internalLinks := gCount reAnchorLink html
  let hasRelated := relatedPatterns.any (fun p => reTest p text)
  let headingsCount := gCount reHOpen html
  let sc1 : ℚ := if hasTOC then 25 else 0
  let sc2 := sc1 + (if hasBreadcrumbs then 20 else 0)
  let sc3 := sc2 + (if 0 < internalLinks then min 20 ((internalLinks : ℚ) * 2) else 0)
  let sc4 := sc3 + (if hasRelated then 15 else 0)
  let sc5 := sc4 + (if 3 ≤ headingsCount then min 20 ((headingsCount : ℚ) * 2) else 0)
  let score := min 100 sc5
  let detailsList :=
    (if hasTOC then ["Table of contents found"] else []) ++
    (if hasBreadcrumbs then ["Breadcrumb navigation found"] else []) ++
    (if 0 < internalLinks then [toString internalLinks ++ " internal anchor links found"]
     else []) ++
    (if hasRelated then ["Related content sections found"] else []) ++
    (if 3 ≤ headingsCount then [toString headingsCount ++ " section headings for structure"]
     else [])
  let rc := getSpecificRecommendations "content-structure" {} { score := some score }
  { id := "content-structure", label := "Content Organization",
    status := if 70 ≤ score then .pass else if 50 ≤ score then .warning else .fail,
    score := score,
    details := if !detailsList.isEmpty then String.intercalate ", " detailsList
               else "Limited content organization detected",
    recommendation := rc.recommendation, actionItems := rc.actionItems }

/-- `textContent.split(/\s+/).length` (note: without filtering empty
    fragments). -/
def wordCountOf (text : String) : ℕ := (jsSplitRuns isWsChar text.data).length

/-- Total number of matches of the four citation patterns in the
    extracted text. -/
def citationCountOf (text : String) : ℕ := (citationPatterns.map (fun p => gCount p text)).sum

/-- `analyzeTopicalAuthority` (route.ts lines 648-739). -/
def topicalAuthorityCheckOf (html : String) (md : Metadata) (text : String) : CheckResult :=
  let hasAuthor := authorPatterns.any (fun p => reTest p html) || jsTruthy md.author ||
    incl "schema.org/Person" html
  let hasDate := datePatterns.any (fun p => reTest p html)
  let citationCount := citationCountOf text
  let wordCount := wordCountOf text
  let hasExpertise := expertisePatterns.any (fun p => reTest p text)
  let sc1 : ℚ := if hasAuthor then 25 else 0
  let sc2 := sc1 + (if hasDate then 20 else 0)
  let sc3 := sc2 + (if 0 < citationCount then min 25 ((citationCount : ℚ) * 3) else 0)
  let sc4 := sc3 + (if 1500 < wordCount then 15 else if 800 < wordCount then 10 else 0)
  let sc5 := sc4 + (if hasExpertise then 15 else 0)
  let score := min 100 sc5
  let detailsList :=
    (if hasAuthor then ["Author information found"] else []) ++
    (if hasDate then ["Publication dates found"] else []) ++
    (if 0 < citationCount then [toString citationCount ++ " citations/references found"]
     else []) ++
    (if 1500 < wordCount then ["In-depth content (" ++ toString wordCount ++ " words)"]
     else if 800 < wordCount then ["Good content length (" ++ toString wordCount ++ " words)"]
     else []) ++
    (if hasExpertise then ["Expertise indicators found"] else [])
  let rc := getSpecificRecommendations "topical-authority" {} { score := some score }
  { id := "topical-authority", label := "Topical Authority",
    status := if 80 ≤ score then .pass else if 60 ≤ score then .warning else .fail,
    score := score,
    details := if !detailsList.isEmpty then String.intercalate ", " detailsList
               else "Limited authority signals detected",
    recommendation := rc.recommendation, actionItems := rc.actionItems }

/-- `analyzeHTML` (route.ts lines 282-504): the eight HTML-based checks
    in push order. -/
def analyzeHTML (html : String) (md : Metadata) : List CheckResult :=
  let textContent := extractTextContent html
  [headingCheckOf html, readabilityCheckOfText textContent, metaCheckOf html md,
   semanticCheckOf html, accessibilityCheckOf html, faqCheckOf html textContent,
   contentStructureCheckOf html textContent, topicalAuthorityCheckOf html md textContent]

/-! The auxiliary file prober (`checkAdditionalFiles`, route.ts
    lines 741-926).  Network responses are modelled as inputs: an
    `Option String` is a 2xx body (or `none` for an error, timeout or
    non-2xx status). -/

/-- The llms.txt validity predicate (route.ts lines 842-850). -/
def isValidLlms (t : String) : Bool :=
  decide (10 < t.length) && !(incl "<!DOCTYPE" t) && !(incl "<html" t) && !(incl "<HTML" t) &&
    !(incl "404 not found" (lowerOf t)) && !(incl "page not found" (lowerOf t)) &&
    !(incl "cannot be found" (lowerOf t))

/-- The default llms.txt check used when no variant validates. -/
def llmsDefaultCheck : CheckResult :=
  { id := "llms-txt", label := "LLMs.txt", status := .fail, score := 0,
    details := "No llms.txt file found",
    recommendation := (getSpecificRecommendations "llms-txt" {} {}).recommendation,
    actionItems := (getSpecificRecommendations "llms-txt" {} {}).actionItems }

/-- The llms.txt check produced when the body of `filename` validates. -/
def llmsSuccessCheck (filename : String) : CheckResult :=
  { id := "llms-txt", label := "LLMs.txt", status := .pass, score := 100,
    details := filename ++ " file found with AI usage guidelines",
    recommendation := "Great! You have defined AI usage permissions",
    actionItems := ["Review and update AI usage guidelines periodically",
                    "Monitor for compliance with AI training policies"] }

/-- Resolution of the llms.txt variant probes: each response
    `(filename, ok, body)` overwrites the shared check when it is 2xx
    and its body validates, in resolution order. -/
def llmsCheckFold (resps : List (String × Bool × String)) : CheckResult :=
  resps.foldl (fun acc r => if r.2.1 && isValidLlms r.2.2 then llmsSuccessCheck r.1 else acc)
    llmsDefaultCheck

/-- `robotsText.toLowerCase().includes('user-agent')`. -/
def hasUserAgentLine (t : String) : Bool := incl "user-agent" (lowerOf t)

/-- Sitemap URLs extracted from robots.txt: for each match of
    `/Sitemap:\s*(.+)/gi`, the `Sitemap:` marker (8 characters) and the
    following whitespace are removed (`.replace(/Sitemap:\s*/i, '')`)
    and the remainder trimmed. -/
def extractSitemapUrls (t : String) : List String :=
  (gScan reSitemapDirective t.data).map (fun m => ⟨trimList ((m.drop 8).dropWhile isWsChar)⟩)

/-- Robots score: `(hasUserAgent ? 60 : 0) + (hasSitemap ? 40 : 0)`. -/
def robotsScoreOf (t : String) : ℚ :=
  (if hasUserAgentLine t then 60 else 0) + (if !(extractSitemapUrls t).isEmpty then 40 else 0)

/-- The default robots.txt check used when the fetch fails. -/
def robotsDefaultCheck : CheckResult :=
  { id := "robots-txt", label := "Robots.txt", status := .fail, score := 0,
    details := "No robots.txt file found",
    recommendation := (getSpecificRecommendations "robots-txt" {} {}).recommendation,
    actionItems := (getSpecificRecommendations "robots-txt" {} {}).actionItems }

/-- The robots.txt check (route.ts lines 799-833). -/
def robotsCheckOf (resp : Option String) : CheckResult :=
  match resp with
  | none => robotsDefaultCheck
  | some robotsText =>
    let sitemapUrls := extractSitemapUrls robotsText
    let score := robotsScoreOf robotsText
    let rc : RecOut :=
      if 80 ≤ score then
        { recommendation := "Robots.txt properly configured for AI crawlers",
          actionItems := ["Monitor crawler behavior and update as needed"] }
      else getSpecificRecommendations "robots-txt" {} {}
    { id := "robots-txt", label := "Robots.txt",
      status := if 80 ≤ score then .pass else if 40 ≤ score then .warning else .fail,
      score := score,
      details := "Robots.txt found" ++
        (if !sitemapUrls.isEmpty then
          " with " ++ toString sitemapUrls.length ++ " sitemap reference(s)" else ""),
      recommendation := rc.recommendation, actionItems := rc.actionItems }

/-- The sitemap content validity test (route.ts lines 897-904). -/
def isValidSitemap (content : String) : Bool :=
  (incl "<?xml" content || incl "<urlset" content || incl "<sitemapindex" content ||
    incl "<url>" content || incl "<sitemap>" content) && !(incl "<!DOCTYPE html" content)

/-- The five well-known sitemap locations (route.ts lines 877-883). -/
def commonSitemapLocations (cleanUrl : String) : List String :=
  [cleanUrl ++ "/sitemap.xml", cleanUrl ++ "/sitemap_index.xml",
   cleanUrl ++ "/sitemap-index.xml", cleanUrl ++ "/sitemaps/sitemap.xml",
   cleanUrl ++ "/sitemap/sitemap.xml"]

/-- The probed candidate list: robots-derived URLs first, then each
    well-known location not already present (route.ts lines 874-889). -/
def buildCandidates (sitemapUrls : List String) (cleanUrl : String) : List String :=
  (commonSitemapLocations cleanUrl).foldl
    (fun acc url => if acc.contains url then acc else acc ++ [url]) sitemapUrls

/-- The default sitemap check used when no candidate validates. -/
def sitemapDefaultCheck : CheckResult :=
  { id := "sitemap", label := "Sitemap", status := .fail, score := 0,
    details := "No sitemap.xml found",
    recommendation := (getSpecificRecommendations "sitemap" {} {}).recommendation,
    actionItems := (getSpecificRecommendations "sitemap" {} {}).actionItems }

/-- The sitemap check produced by the first validating candidate. -/
def sitemapSuccessCheck (fromRobots : Bool) (pathNote : String) : CheckResult :=
  { id := "sitemap", label := "Sitemap", status := .pass, score := 100,
    details := "Valid XML sitemap found" ++
      (if fromRobots then " (referenced in robots.txt)" else " at " ++ pathNote),
    recommendation := "Sitemap is properly configured for discoverability",
    actionItems := ["Keep sitemap updated with new content",
                    "Monitor crawl statistics in search console",
                    "Include priority and lastmod dates"] }

/-- Sequential sitemap probing with early exit on the first valid hit
    (route.ts lines 891-923); `fetch` maps a URL to its 2xx body. -/
def sitemapProbe (fetch : String → Option String) (sitemapUrls : List String)
    (cleanUrl : String) : List String → CheckResult
  | [] => sitemapDefaultCheck
  | u :: rest =>
    match fetch u with
    | some content =>
      if isValidSitemap content then
        sitemapSuccessCheck (sitemapUrls.contains u) (replaceFirst cleanUrl u)
      else sitemapProbe fetch sitemapUrls cleanUrl rest
    | none => sitemapProbe fetch sitemapUrls cleanUrl rest

/-! Domain reputation and the score aggregator (route.ts
    lines 928-1102). -/

/-- The hard-coded top-tier domain list. -/
def topTierDomains : List String :=
  ["vercel.com", "stripe.com", "github.com", "openai.com",
   "anthropic.com", "google.com", "microsoft.com", "apple.com",
   "aws.amazon.com", "cloud.google.com", "azure.microsoft.com",
   "react.dev", "nextjs.org", "tailwindcss.com"]

/-- The hard-coded second-tier domain list. -/
def secondTierDomains : List String :=
  ["netlify.com", "heroku.com", "digitalocean.com", "cloudflare.com",
   "twilio.com", "slack.com", "notion.so", "linear.app", "figma.com"]

/-- `domain.replace('www.', '')` (first occurrence only, as JS does). -/
def wwwStripped (domain : String) : String := replaceFirst "www." domain

/-- Hostname contains `docs.`, `developer.` or `api.`. -/
def docsPatternOf (cleanDomain : String) : Bool :=
  incl "docs." cleanDomain || incl "developer." cleanDomain || incl "api." cleanDomain

/-- Hostname equals, or is a subdomain of, a member of `l`. -/
def tierMatch (l : List String) (cleanDomain : String) : Bool :=
  l.any (fun d => cleanDomain == d || chEnds ("." ++ d).data cleanDomain.data)

/-- `getDomainReputationBonus` (route.ts lines 929-959): documentation
    pattern first, then top tier, then second tier. -/
def getDomainReputationBonus (domain : String) : ℤ :=
  let cleanDomain := wwwStripped domain
  if docsPatternOf cleanDomain then 20
  else if tierMatch topTierDomains cleanDomain then 18
  else if tierMatch secondTierDomains cleanDomain then 12
  else 0

/-- The fixed weight table (route.ts lines 1032-1051), defaulting to 1.0
    for unlisted ids. -/
def weightFor (id : String) : ℚ :=
  if id = "readability" then 1.5
  else if id = "heading-structure" then 1.4
  else if id = "meta-tags" then 1.2
  else if id = "faq-structure" then 1.3
  else if id = "topical-authority" then 1.2
  else if id = "content-structure" then 1.1
  else if id = "semantic-html" then 1.0
  else if id = "accessibility" then 0.9
  else if id = "robots-txt" then 0.8
  else if id = "sitemap" then 0.7
  else if id = "llms-txt" then 0.3
  else 1.0

/-- The accumulated `weightedSum` of the aggregation loop. -/
def weightedSum : List CheckResult → ℚ
  | [] => 0
  | c :: cs => c.score * weightFor c.id + weightedSum cs

/-- The accumulated `totalWeight` of the aggregation loop. -/
def totalWeight : List CheckResult → ℚ
  | [] => 0
  | c :: cs => weightFor c.id + totalWeight cs

/-- The five content-signal metric ids (route.ts line 1070). -/
def contentSignalIds : List String :=
  ["readability", "heading-structure", "meta-tags", "faq-structure", "topical-authority"]

/-- The overall score computation of the POST handler (route.ts
    lines 1053-1085): weighted rounded base, content-signal bonus,
    minimum-viable floor, reputation bonus, capped at 100. -/
def overallScoreOf (allChecks : List CheckResult) (domain : String) : ℤ :=
  let reputationBonus := getDomainReputationBonus domain
  let baseScore := jsRound (weightedSum allChecks / totalWeight allChecks)
  let contentSignals :=
    (allChecks.filter (fun c => contentSignalIds.contains c.id && decide ((60 : ℚ) ≤ c.score))).length
  let boosted :=
    if 3 ≤ contentSignals then baseScore + 15
    else if 2 ≤ contentSignals then baseScore + 10
    else baseScore
  let floored :=
    if boosted < 35 && allChecks.any (fun c => decide ((80 : ℚ) ≤ c.score)) then 35 else boosted
  min 100 (floored + reputationBonus)

/-- The combined check list of the POST handler (route.ts
    lines 1023-1028): llms, robots, sitemap, then the HTML checks. -/
def allChecksOf (html : String) (md : Metadata) (robotsResp : Option String)
    (llmsResps : List (String × Bool × String)) (fetch : String → Option String)
    (cleanUrl : String) : List CheckResult :=
  let sitemapUrls := match robotsResp with
    | none => []
    | some t => extractSitemapUrls t
  [llmsCheckFold llmsResps, robotsCheckOf robotsResp,
   sitemapProbe fetch sitemapUrls cleanUrl (buildCandidates sitemapUrls cleanUrl)] ++
    analyzeHTML html md

/-! Claim-side definitions: statements of parts of the specification in
    the specification's own wording, to be compared against the
    definitions above, plus concrete inputs used in the statements. -/

/-- A check with a given id and score (the aggregator reads nothing
    else). -/
def mkC (id : String) (s : ℚ) : CheckResult :=
  { id := id, label := "", status := .fail, score := s, details := "",
    recommendation := "", actionItems := [] }

/-- Syllable counting exactly as the claim words it: each word
    contributes its number of contiguous vowel-letter groups, with a
    word that has zero vowel groups counting as exactly 1 syllable. -/
def syllablesClaimedC4 (words : List (List Char)) : ℕ :=
  words.foldl (fun acc w => acc + (let n := countRuns isVowelChar w; if n = 0 then 1 else n)) 0

/-- The readability estimator exactly as the claim words it: sentence
    counting discards only EMPTY fragments (not whitespace-only ones),
    and every zero-vowel word counts as exactly 1 syllable; everything
    else is as in the specification. -/
def readabilityClaimedC4 (text : String) : ℚ :=
  let sentences := (jsSplitRuns isSentSep text.data).filter (fun s => !s.isEmpty)
  let words := (jsSplitRuns isWsChar text.data).filter (fun w => !w.isEmpty)
  let syllables := syllablesClaimedC4 words
  if sentences.length = 0 || words.length = 0 then 0
  else
    let avgWordsPerSentence : ℚ := (words.length : ℚ) / (sentences.length : ℚ)
    let avgSyllablesPerWord : ℚ := (syllables : ℚ) / (words.length : ℚ)
    let score := 206.835 - 1.015 * avgWordsPerSentence - 84.6 * avgSyllablesPerWord
    max 0 (min 100 score)

/-- Total number of vowel groups across a list of words. -/
def vowelGroupTotal (words : List (List Char)) : ℕ :=
  (words.map (fun w => countRuns isVowelChar w)).sum

/-- Syllable counting as the amended claim words it: the total number
    of vowel groups across all words, plus exactly 1 when the first
    word has zero vowel groups.  This is what the code's
    `(acc + count) || 1` accumulator computes: a zero-vowel word yields
    1 only while the running total is still zero, and later zero-vowel
    words add nothing. -/
def syllablesAmendedC4 (words : List (List Char)) : ℕ :=
  vowelGroupTotal words +
    (match words with
     | [] => 0
     | w :: _ => if countRuns isVowelChar w = 0 then 1 else 0)

/-- The amended readability claim: sentence counting discards the
    fragments that contain no non-whitespace character (i.e. the
    fragments that are empty after trimming), and syllables are the
    total vowel-group count plus 1 when the first word lacks vowel
    groups. -/
def readabilityAmendedC4 (text : String) : ℚ :=
  let sentences := (jsSplitRuns isSentSep text.data).filter (fun s => s.any (fun c => !isWsChar c))
  let words := (jsSplitRuns isWsChar text.data).filter (fun w => !w.isEmpty)
  let syllables := syllablesAmendedC4 words
  if sentences.length = 0 || words.length = 0 then 0
  else
    let avgWordsPerSentence : ℚ := (words.length : ℚ) / (sentences.length : ℚ)
    let avgSyllablesPerWord : ℚ := (syllables : ℚ) / (words.length : ℚ)
    let score := 206.835 - 1.015 * avgWordsPerSentence - 84.6 * avgSyllablesPerWord
    max 0 (min 100 score)

/-- The aggregation formula exactly as the claim words it, over the
    scores of the eleven fixed metrics:
    `base = round(Σ(score×weight) / Σ(weight))` with the listed weights,
    plus 15 when at least 3 of the five content-signal metrics score
    ≥60 (else 10 when at least 2 do), raised to 35 when below 35 with
    some check scoring ≥80, and finally
    `min(100, base + reputationBonus)`. -/
def claimAggregate (l ro si h r m se a f c t : ℚ) (domain : String) : ℤ :=
  let base := jsRound ((r * 1.5 + h * 1.4 + f * 1.3 + m * 1.2 + t * 1.2 + c * 1.1 +
    se * 1.0 + a * 0.9 + ro * 0.8 + si * 0.7 + l * 0.3) /
    (1.5 + 1.4 + 1.3 + 1.2 + 1.2 + 1.1 + 1.0 + 0.9 + 0.8 + 0.7 + 0.3))
  let cnt : ℕ := (if 60 ≤ r then 1 else 0) + (if 60 ≤ h then 1 else 0) +
    (if 60 ≤ m then 1 else 0) + (if 60 ≤ f then 1 else 0) + (if 60 ≤ t then 1 else 0)
  let boosted := if 3 ≤ cnt then base + 15 else if 2 ≤ cnt then base + 10 else base
  let floored :=
    if boosted < 35 && (decide (80 ≤ l) || decide (80 ≤ ro) || decide (80 ≤ si) ||
      decide (80 ≤ h) || decide (80 ≤ r) || decide (80 ≤ m) || decide (80 ≤ se) ||
      decide (80 ≤ a) || decide (80 ≤ f) || decide (80 ≤ c) || decide (80 ≤ t))
    then 35 else boosted
  min 100 (floored + getDomainReputationBonus domain)

/-- Claim-side grouping: the body looks like an HTML document. -/
def looksLikeHtmlDoc (t : String) : Bool :=
  incl "<!DOCTYPE" t || incl "<html" t || incl "<HTML" t

/-- Claim-side grouping: the body looks like a 404 / not-found page
    (case-insensitive phrase checks). -/
def looksLikeNotFound (t : String) : Bool :=
  incl "404 not found" (lowerOf t) || incl "page not found" (lowerOf t) ||
    incl "cannot be found" (lowerOf t)

/-- One `<h1>` followed by strictly increasing sequential headings. -/
def c3WitnessHtml : String := "<h1>Main topic</h1><h2>Section</h2><h3>Subsection</h3>"

/-- A text with zero-vowel words (`hm`) after a vowel-bearing first
    word: the code's `(acc + count) || 1` accumulator gives 15
    syllables while the claim's per-word rule gives 20; sentence and
    word counts agree. -/
def c4WitnessSyllables : String := "banana hm banana hm banana hm banana hm banana hm."

/-- A text whose split on `[.!?]+` produces a whitespace-only fragment:
    the code counts 2 sentences here and the claim, as worded, counts
    3; all words carry exactly one vowel group, so both syllable rules
    agree. -/
def c4WitnessSentences : String :=
  "ba ba ba ba ba ba ba ba ba ba ba ba ba ba ba ba ba ba ba ba ba ba ba ba ba ba ba ba ba ba ba ba ba ba ba ba ba ba ba ba ba ba ba ba. .ba"

/-- A 120-character description value. -/
def c7DescValue : String :=
  "aaaaaaaaaaaaaaaaaaaaaaaaaaaaaaaaaaaaaaaaaaaaaaaaaaaaaaaaaaaaaaaaaaaaaaaaaaaaaaaaaaaaaaaaaaaaaaaaaaaaaaaaaaaaaaaaaaaaaaaa"

/-- A page with a title tag, a 120-character `name="description"` meta
    (whose `content="..."` is the first in the document), an author meta
    and an `article:published_time` property. -/
def c7WitnessHtml : String :=
  "<title>Example Page Title</title><meta name=\"description\" content=\"" ++ c7DescValue ++
    "\"><meta name=\"author\" content=\"Jane Doe\"><meta property=\"article:published_time\" content=\"2024-01-01\">"

/-- The claim C8 response body that must never be accepted. -/
def c8BadBody : String := "<html><body>404 Not Found</body></html>"

/-- The claim C9 robots.txt body. -/
def c9RobotsBody : String := "User-agent: *\nSitemap: https://x.com/sitemap.xml"

/-! Helper lemmas. -/

theorem q_ite_pos {c : Prop} [Decidable c] {a b : ℚ} (ha : 0 < a) (hb : 0 < b) :
    0 < if c then a else b := by
  split <;> assumption

theorem q_ite_nonneg {c : Prop} [Decidable c] {a b : ℚ} (ha : 0 ≤ a) (hb : 0 ≤ b) :
    0 ≤ if c then a else b := by
  split <;> assumption

theorem z_ite_nonneg {c : Prop} [Decidable c] {a b : ℤ} (ha : 0 ≤ a) (hb : 0 ≤ b) :
    0 ≤ if c then a else b := by
  split <;> assumption

theorem z_ite_le {c : Prop} [Decidable c] {a b n : ℤ} (ha : a ≤ n) (hb : b ≤ n) :
    (if c then a else b) ≤ n := by
  split <;> assumption

/-- Every weight in the table (and the default) is positive. -/
theorem weightFor_pos (id : String) : 0 < weightFor id := by
  unfold weightFor
  repeat' apply q_ite_pos
  all_goals norm_num

theorem totalWeight_nonneg (l : List CheckResult) : 0 ≤ totalWeight l := by
  induction l with
  | nil => simp [totalWeight]
  | cons c cs ih =>
    have := weightFor_pos c.id
    simp only [totalWeight]
    linarith

theorem totalWeight_pos (l : List CheckResult) (h : l ≠ []) : 0 < totalWeight l := by
  cases l with
  | nil => exact absurd rfl h
  | cons c cs =>
    have h1 := weightFor_pos c.id
    have h2 := totalWeight_nonneg cs
    simp only [totalWeight]
    linarith

theorem weightedSum_nonneg (l : List CheckResult) (h : ∀ c ∈ l, 0 ≤ c.score) :
    0 ≤ weightedSum l := by
  induction l with
  | nil => simp [weightedSum]
  | cons c cs ih =>
    have hc := h c (List.mem_cons_self c cs)
    have hw := (weightFor_pos c.id).le
    have hcs := ih (fun d hd => h d (List.mem_cons_of_mem c hd))
    simp only [weightedSum]
    nlinarith

theorem weightedSum_le (l : List CheckResult) (h : ∀ c ∈ l, c.score ≤ 100) :
    weightedSum l ≤ 100 * totalWeight l := by
  induction l with
  | nil => simp [weightedSum, totalWeight]
  | cons c cs ih =>
    have hc := h c (List.mem_cons_self c cs)
    have hw := (weightFor_pos c.id).le
    have hcs := ih (fun d hd => h d (List.mem_cons_of_mem c hd))
    simp only [weightedSum, totalWeight]
    nlinarith

theorem jsRound_nonneg {q : ℚ} (h : 0 ≤ q) : 0 ≤ jsRound q := by
  unfold jsRound
  exact Int.le_floor.mpr (by push_cast; linarith)

theorem jsRound_le_100 {q : ℚ} (h : q ≤ 100) : jsRound q ≤ 100 := by
  unfold jsRound
  have : ⌊q + 1 / 2⌋ < 101 := Int.floor_lt.mpr (by push_cast; linarith)
  omega

theorem repBonus_nonneg (d : String) : 0 ≤ getDomainReputationBonus d := by
  simp only [getDomainReputationBonus]
  repeat' apply z_ite_nonneg
  all_goals norm_num

theorem repBonus_le (d : String) : getDomainReputationBonus d ≤ 20 := by
  simp only [getDomainReputationBonus]
  repeat' apply z_ite_le
  all_goals norm_num

/-- The overall score is within `[0, 100]` whenever every check score
    is. -/
theorem overallScoreOf_bounds (l : List CheckResult) (domain : String) (hne : l ≠ [])
    (h : ∀ c ∈ l, 0 ≤ c.score ∧ c.score ≤ 100) :
    0 ≤ overallScoreOf l domain ∧ overallScoreOf l domain ≤ 100 := by
  have htw := totalWeight_pos l hne
  have hws0 := weightedSum_nonneg l (fun c hc => (h c hc).1)
  have hws1 := weightedSum_le l (fun c hc => (h c hc).2)
  have hdiv0 : 0 ≤ weightedSum l / totalWeight l := div_nonneg hws0 htw.le
  have hdiv1 : weightedSum l / totalWeight l ≤ 100 := by
    rw [div_le_iff₀ htw]; linarith
  have hb0 := jsRound_nonneg hdiv0
  have hb1 := jsRound_le_100 hdiv1
  have hrep0 := repBonus_nonneg domain
  have hrep1 := repBonus_le domain
  unfold overallScoreOf
  refine ⟨le_min (by norm_num) ?_, min_le_left _ _⟩
  split_ifs <;> omega

/-! Score bounds for each analyzer. -/

theorem headingCheck_score_bounds (html : String) :
    0 ≤ (headingCheckOf html).score ∧ (headingCheckOf html).score ≤ 100 := by
  simp only [headingCheckOf]
  have hj : (0 : ℚ) ≤ (countJumps (headingLevelsOf html) : ℚ) := Nat.cast_nonneg _
  refine ⟨le_max_left 0 _, max_le (by norm_num) ?_⟩
  split_ifs <;> linarith

theorem readabilityCheck_score_bounds (text : String) :
    0 ≤ (readabilityCheckOfText text).score ∧ (readabilityCheckOfText text).score ≤ 100 := by
  simp only [readabilityCheckOfText]
  split_ifs <;> norm_num

theorem metaCheck_score_bounds (html : String) (md : Metadata) :
    0 ≤ (metaCheckOf html md).score ∧ (metaCheckOf html md).score ≤ 100 := by
  simp only [metaCheckOf]
  refine ⟨le_min (by norm_num) ?_, min_le_left _ _⟩
  split_ifs <;> norm_num

theorem semanticCheck_score_bounds (html : String) :
    0 ≤ (semanticCheckOf html).score ∧ (semanticCheckOf html).score ≤ 100 := by
  simp only [semanticCheckOf]
  refine ⟨le_min (by norm_num) ?_, min_le_left _ _⟩
  split_ifs <;> positivity

theorem accessibilityCheck_score_bounds (html : String) :
    0 ≤ (accessibilityCheckOf html).score ∧ (accessibilityCheckOf html).score ≤ 100 := by
  simp only [accessibilityCheckOf]
  constructor
  · exact_mod_cast jsRound_nonneg (le_min (by norm_num) (by split_ifs <;> positivity))
  · exact_mod_cast jsRound_le_100 (min_le_left _ _)

theorem faqCheck_score_bounds (html text : String) :
    0 ≤ (faqCheckOf html text).score ∧ (faqCheckOf html text).score ≤ 100 := by
  simp only [faqCheckOf]
  refine ⟨le_min (by norm_num) ?_, min_le_left _ _⟩
  split_ifs <;> positivity

theorem contentCheck_score_bounds (html text : String) :
    0 ≤ (contentStructureCheckOf html text).score ∧
      (contentStructureCheckOf html text).score ≤ 100 := by
  simp only [contentStructureCheckOf]
  refine ⟨le_min (by norm_num) ?_, min_le_left _ _⟩
  split_ifs <;> positivity

theorem authorityCheck_score_bounds (html : String) (md : Metadata) (text : String) :
    0 ≤ (topicalAuthorityCheckOf html md text).score ∧
      (topicalAuthorityCheckOf html md text).score ≤ 100 := by
  simp only [topicalAuthorityCheckOf]
  refine ⟨le_min (by norm_num) ?_, min_le_left _ _⟩
  split_ifs <;> positivity

theorem robotsCheck_score_bounds (resp : Option String) :
    0 ≤ (robotsCheckOf resp).score ∧ (robotsCheckOf resp).score ≤ 100 := by
  cases resp with
  | none => constructor <;> norm_num [robotsCheckOf, robotsDefaultCheck]
  | some t =>
    simp only [robotsCheckOf, robotsScoreOf]
    constructor <;> split_ifs <;> norm_num

theorem llmsFoldAux_score (resps : List (String × Bool × String)) :
    ∀ acc : CheckResult, acc.score = 0 ∨ acc.score = 100 →
      (resps.foldl (fun acc r => if r.2.1 && isValidLlms r.2.2 then llmsSuccessCheck r.1 else acc)
        acc).score = 0 ∨
      (resps.foldl (fun acc r => if r.2.1 && isValidLlms r.2.2 then llmsSuccessCheck r.1 else acc)
        acc).score = 100 := by
  induction resps with
  | nil => intro acc h; simpa using h
  | cons r rs ih =>
    intro acc h
    simp only [List.foldl_cons]
    apply ih
    by_cases hc : (r.2.1 && isValidLlms r.2.2) = true
    · rw [if_pos hc]; right; rfl
    · rw [if_neg hc]; exact h

theorem llmsCheck_score_bounds (resps : List (String × Bool × String)) :
    0 ≤ (llmsCheckFold resps).score ∧ (llmsCheckFold resps).score ≤ 100 := by
  rcases llmsFoldAux_score resps llmsDefaultCheck (Or.inl rfl) with h | h <;>
    (unfold llmsCheckFold; rw [h]) <;> norm_num

theorem sitemapProbe_score_cases (fetch : String → Option String) (su : List String)
    (cu : String) : ∀ cands, (sitemapProbe fetch su cu cands).score = 0 ∨
      (sitemapProbe fetch su cu cands).score = 100 := by
  intro cands
  induction cands with
  | nil => left; rfl
  | cons u rest ih =>
    cases hf : fetch u with
    | none => simp only [sitemapProbe, hf]; exact ih
    | some content =>
      simp only [sitemapProbe, hf]
      split_ifs with h
      · right; rfl
      · exact ih

theorem sitemapCheck_score_bounds (fetch : String → Option String) (su : List String)
    (cu : String) (cands : List String) :
    0 ≤ (sitemapProbe fetch su cu cands).score ∧ (sitemapProbe fetch su cu cands).score ≤ 100 := by
  rcases sitemapProbe_score_cases fetch su cu cands with h | h <;> rw [h] <;> norm_num

/-! Claim theorems. -/

/-- C1: for every input HTML, metadata and URL, and for every outcome of
    the auxiliary file probes, every `CheckResult` produced by the
    analyzers and probes has score in `[0, 100]`, and the aggregated
    overall score is in `[0, 100]`. -/
theorem C1_all_scores_bounded (html : String) (md : Metadata) (robotsResp : Option String)
    (llmsResps : List (String × Bool × String)) (fetch : String → Option String)
    (cleanUrl domain : String) :
    (∀ c ∈ allChecksOf html md robotsResp llmsResps fetch cleanUrl,
      0 ≤ c.score ∧ c.score ≤ 100) ∧
    0 ≤ overallScoreOf (allChecksOf html md robotsResp llmsResps fetch cleanUrl) domain ∧
    overallScoreOf (allChecksOf html md robotsResp llmsResps fetch cleanUrl) domain ≤ 100 := by
  have hmem : ∀ c ∈ allChecksOf html md robotsResp llmsResps fetch cleanUrl,
      0 ≤ c.score ∧ c.score ≤ 100 := by
    intro c hc
    simp only [allChecksOf, analyzeHTML, List.mem_append, List.mem_cons,
      List.not_mem_nil, or_false] at hc
    rcases hc with (rfl | rfl | rfl) | (rfl | rfl | rfl | rfl | rfl | rfl | rfl | rfl)
    exacts [llmsCheck_score_bounds _, robotsCheck_score_bounds _,
      sitemapCheck_score_bounds _ _ _ _, headingCheck_score_bounds _,
      readabilityCheck_score_bounds _, metaCheck_score_bounds _ _,
      semanticCheck_score_bounds _, accessibilityCheck_score_bounds _,
      faqCheck_score_bounds _ _, contentCheck_score_bounds _ _,
      authorityCheck_score_bounds _ _ _]
  have hne : allChecksOf html md robotsResp llmsResps fetch cleanUrl ≠ [] := by
    simp [allChecksOf]
  obtain ⟨h1, h2⟩ := overallScoreOf_bounds _ domain hne hmem
  exact ⟨hmem, h1, h2⟩

theorem countJumps_of_chain :
    ∀ l : List ℕ, List.Chain' (fun a b => b = a + 1) l → countJumps l = 0 := by
  intro l h
  induction l with
  | nil => rfl
  | cons a t ih =>
    cases t with
    | nil => rfl
    | cons b rest =>
      obtain ⟨h1, h2⟩ := List.chain'_cons.mp h
      have : ¬a + 1 < b := by omega
      simp only [countJumps, if_neg this, Nat.zero_add]
      exact ih h2

/-- C3: the heading-structure score starts at 100, subtracts 40 when
    there is no `<h1>`, 30 when there is more than one, and 15 per
    adjacent heading-level jump greater than 1, floored at 0; the status
    is pass at ≥80, warning at ≥50 and fail below; and a page with
    exactly one `<h1>` and strictly increasing sequential heading levels
    scores 100 with status pass. -/
theorem C3_heading_structure (html : String) :
    (headingCheckOf html).score =
      max 0 (100 - (if h1CountOf html = 0 then 40 else if 1 < h1CountOf html then 30 else 0) -
        15 * (countJumps (headingLevelsOf html) : ℚ)) ∧
    (headingCheckOf html).status =
      (if 80 ≤ (headingCheckOf html).score then Status.pass
       else if 50 ≤ (headingCheckOf html).score then Status.warning else Status.fail) ∧
    (h1CountOf html = 1 →
      List.Chain' (fun a b => b = a + 1) (headingLevelsOf html) →
      (headingCheckOf html).score = 100 ∧ (headingCheckOf html).status = Status.pass) := by
  refine ⟨?_, ?_, ?_⟩
  · simp only [headingCheckOf]
    split_ifs <;> ring_nf
  · rfl
  · intro h1 hc
    have hj := countJumps_of_chain _ hc
    constructor <;> (simp only [headingCheckOf, h1, hj]; norm_num)

/-- Witness for C3: a page with one `<h1>` and headings 1, 2, 3. -/
theorem C3_heading_structure_witness :
    h1CountOf c3WitnessHtml = 1 ∧ (headingCheckOf c3WitnessHtml).score = 100 ∧
      (headingCheckOf c3WitnessHtml).status = Status.pass := by
  have hch : List.Chain' (fun a b => b = a + 1) (headingLevelsOf c3WitnessHtml) := by
    rw [show headingLevelsOf c3WitnessHtml = [1, 2, 3] from by decide]
    exact List.chain'_cons.mpr ⟨rfl, List.chain'_cons.mpr ⟨rfl, List.chain'_singleton 3⟩⟩
  have h := (C3_heading_structure c3WitnessHtml).2.2 (by decide) hch
  exact ⟨by decide, h.1, h.2⟩

theorem trimList_eq_nil_iff (l : List Char) :
    trimList l = [] ↔ ∀ c ∈ l, isWsChar c = true := by
  unfold trimList
  rw [List.reverse_eq_nil_iff, List.dropWhile_eq_nil_iff]
  constructor
  · intro h c hc
    rcases (List.mem_append.mp (by rw [List.takeWhile_append_dropWhile isWsChar l]; exact hc :
        c ∈ l.takeWhile isWsChar ++ l.dropWhile isWsChar)) with h1 | h1
    · exact List.mem_takeWhile_imp h1
    · exact h c (List.mem_reverse.mpr h1)
  · intro h c hc
    exact h c ((List.dropWhile_sublist isWsChar).mem (List.mem_reverse.mp hc))

theorem trim_filter_eq (l : List (List Char)) :
    l.filter (fun s => !(trimList s).isEmpty) =
      l.filter (fun s => s.any (fun c => !isWsChar c)) := by
  apply List.filter_congr
  intro s _
  rw [Bool.eq_iff_iff]
  simp only [Bool.not_eq_true', List.any_eq_true, Bool.not_eq_true]
  constructor
  · intro h
    by_contra hn
    push_neg at hn
    have hnil : trimList s = [] := (trimList_eq_nil_iff s).mpr (fun c hc => by
      cases hx : isWsChar c
      · exact absurd hx (hn c hc)
      · rfl)
    rw [hnil] at h
    exact absurd h (by simp)
  · rintro ⟨c, hc, hcw⟩
    cases he : (trimList s).isEmpty
    · rfl
    · exfalso
      have := (trimList_eq_nil_iff s).mp (List.isEmpty_iff.mp he) c hc
      rw [this] at hcw
      cases hcw

theorem foldl_syllableStep_pos (ws : List (List Char)) :
    ∀ acc : ℕ, 1 ≤ acc → ws.foldl syllableStep acc = acc + vowelGroupTotal ws := by
  induction ws with
  | nil => intro acc _; simp [vowelGroupTotal]
  | cons w ws ih =>
    intro acc hacc
    rw [List.foldl_cons]
    have hz : ¬(acc + countRuns isVowelChar w = 0) := by omega
    have hstep : syllableStep acc w = acc + countRuns isVowelChar w := by
      unfold syllableStep
      simp [hz]
    rw [hstep, ih _ (by omega)]
    simp only [vowelGroupTotal, List.map_cons, List.sum_cons]
    omega

theorem syllablesOf_eq_amended (ws : List (List Char)) :
    syllablesOf ws = syllablesAmendedC4 ws := by
  cases ws with
  | nil => rfl
  | cons w ws =>
    unfold syllablesOf syllablesAmendedC4
    rw [List.foldl_cons]
    by_cases h0 : countRuns isVowelChar w = 0
    · have hstep : syllableStep 0 w = 1 := by
        unfold syllableStep
        simp [h0]
      rw [hstep, foldl_syllableStep_pos ws 1 (le_refl 1)]
      simp [vowelGroupTotal, h0]
      omega
    · have hstep : syllableStep 0 w = countRuns isVowelChar w := by
        unfold syllableStep
        simp [h0]
      rw [hstep, foldl_syllableStep_pos ws _ (by omega)]
      simp [vowelGroupTotal, h0]

/-- C4 counterexample: the readability estimator of the code differs
    from the estimator exactly as the claim words it, on two concrete
    texts.  On `c4WitnessSyllables` (zero-vowel words after a
    vowel-bearing word) only the syllable rules differ: the code's
    `(acc + count) || 1` accumulator gives a zero-vowel word 1 syllable
    only while the running total is zero, not per word.  On
    `c4WitnessSentences` (a whitespace-only sentence fragment) only the
    sentence rules differ: the code also discards whitespace-only
    fragments, not just empty ones. -/
theorem C4_readability_counterexample :
    calculateReadability c4WitnessSyllables ≠ readabilityClaimedC4 c4WitnessSyllables ∧
    calculateReadability c4WitnessSentences ≠ readabilityClaimedC4 c4WitnessSentences := by
  constructor
  · have hs : (readabilitySentences c4WitnessSyllables).length = 1 := by decide
    have hs' : ((jsSplitRuns isSentSep c4WitnessSyllables.data).filter
        (fun s => !s.isEmpty)).length = 1 := by decide
    have hw : (readabilityWords c4WitnessSyllables).length = 10 := by decide
    have hw' : ((jsSplitRuns isWsChar c4WitnessSyllables.data).filter
        (fun w => !w.isEmpty)).length = 10 := by decide
    have hy : syllablesOf (readabilityWords c4WitnessSyllables) = 15 := by decide
    have hy' : syllablesClaimedC4 ((jsSplitRuns isWsChar c4WitnessSyllables.data).filter
        (fun w => !w.isEmpty)) = 20 := by decide
    unfold calculateReadability readabilityClaimedC4
    simp only [hs, hs', hw, hw', hy, hy']
    norm_num
  · have hs : (readabilitySentences c4WitnessSentences).length = 2 := by decide
    have hs' : ((jsSplitRuns isSentSep c4WitnessSentences.data).filter
        (fun s => !s.isEmpty)).length = 3 := by decide
    have hw : (readabilityWords c4WitnessSentences).length = 45 := by decide
    have hw' : ((jsSplitRuns isWsChar c4WitnessSentences.data).filter
        (fun w => !w.isEmpty)).length = 45 := by decide
    have hy : syllablesOf (readabilityWords c4WitnessSentences) = 45 := by decide
    have hy' : syllablesClaimedC4 ((jsSplitRuns isWsChar c4WitnessSentences.data).filter
        (fun w => !w.isEmpty)) = 45 := by decide
    unfold calculateReadability readabilityClaimedC4
    simp only [hs, hs', hw, hw', hy, hy']
    norm_num

/-- C4 amended: the readability estimator is exactly as the claim states
    it, except that (a) sentence counting discards every fragment with
    no non-whitespace character (whitespace-only fragments included),
    not only the empty fragments, and (b) the syllable count is the
    total number of vowel groups across all words plus 1 when the first
    word has zero vowel groups, rather than a per-word minimum of 1. -/
theorem C4_readability_amended (text : String) :
    calculateReadability text = readabilityAmendedC4 text := by
  unfold calculateReadability readabilityAmendedC4 readabilitySentences readabilityWords
  simp only [trim_filter_eq, syllablesOf_eq_amended]

/-- C5: for every text with zero sentences or zero words the readability
    estimator returns exactly 0, and the resulting readability check has
    bucket score 20 and status fail. -/
theorem C5_readability_zero (text : String)
    (h : (readabilitySentences text).length = 0 ∨ (readabilityWords text).length = 0) :
    calculateReadability text = 0 ∧ (readabilityCheckOfText text).score = 20 ∧
      (readabilityCheckOfText text).status = Status.fail := by
  have h0 : calculateReadability text = 0 := by
    unfold calculateReadability
    rcases h with h | h <;> simp [h]
  refine ⟨h0, ?_, ?_⟩ <;> (simp only [readabilityCheckOfText, h0]; norm_num)

/-- Witness for C5 at the empty string. -/
theorem C5_readability_zero_witness :
    ((readabilitySentences "").length = 0 ∨ (readabilityWords "").length = 0) ∧
      calculateReadability "" = 0 ∧ (readabilityCheckOfText "").score = 20 ∧
      (readabilityCheckOfText "").status = Status.fail := by
  have h := C5_readability_zero "" (Or.inl (by decide))
  exact ⟨Or.inl (by decide), h.1, h.2.1, h.2.2⟩

/-- C6: the reputation bonus checks the documentation pattern first
    (+20), then the top tier (+18), then the second tier (+12), else 0;
    in particular `docs.example.com` gets +20, `vercel.com` +18,
    `netlify.com` +12 and `randomsite.io` +0. -/
theorem C6_domain_reputation (domain : String) :
    getDomainReputationBonus domain =
      (if docsPatternOf (wwwStripped domain) then 20
       else if tierMatch topTierDomains (wwwStripped domain) then 18
       else if tierMatch secondTierDomains (wwwStripped domain) then 12
       else 0) ∧
    getDomainReputationBonus "docs.example.com" = 20 ∧
    getDomainReputationBonus "vercel.com" = 18 ∧
    getDomainReputationBonus "netlify.com" = 12 ∧
    getDomainReputationBonus "randomsite.io" = 0 := by
  exact ⟨rfl, by decide, by decide, by decide, by decide⟩

/-- C7: the meta-tags score is `min(100, 30 + title + description
    (+10 when the first `content="..."` value has length in [70, 160])
    + author + date)` with pass at ≥70 and warning at ≥40; a page with a
    title tag, a 120-character `name="description"` meta, an author meta
    and an `article:published_time` property scores 100 with pass. -/
theorem C7_meta_tags (html : String) (md : Metadata) :
    (metaCheckOf html md).score =
      min 100 ((30 : ℚ) +
        (if hasOgTitleOf html md then 30 else if incl "<title" html then 20 else 0) +
        (if hasOgDescriptionOf html md then
          25 + (if 70 ≤ descLengthOf html ∧ descLengthOf html ≤ 160 then 10 else 0)
         else 0) +
        (if hasAuthorMetaOf html then 10 else 0) +
        (if hasPublishDateOf html then 10 else 0)) ∧
    (metaCheckOf html md).status =
      (if 70 ≤ (metaCheckOf html md).score then Status.pass
       else if 40 ≤ (metaCheckOf html md).score then Status.warning else Status.fail) ∧
    (incl "<title" html = true → incl "name=\"description\"" html = true →
      descLengthOf html = 120 → incl "name=\"author\"" html = true →
      incl "property=\"article:published_time\"" html = true →
      (metaCheckOf html md).score = 100 ∧ (metaCheckOf html md).status = Status.pass) := by
  refine ⟨?_, rfl, ?_⟩
  · have hD : ((decide (70 ≤ descLengthOf html) && decide (descLengthOf html ≤ 160)) = true) =
        (70 ≤ descLengthOf html ∧ descLengthOf html ≤ 160) := by simp
    simp only [metaCheckOf, hD]
    split_ifs <;> norm_num
  · intro h1 h2 h3 h4 h5
    have hA : hasOgTitleOf html md = true := by simp [hasOgTitleOf, h1]
    have hC : hasOgDescriptionOf html md = true := by simp [hasOgDescriptionOf, h2]
    constructor <;>
      (simp only [metaCheckOf, hA, hC, h3, h4, h5, hasAuthorMetaOf, hasPublishDateOf,
        Bool.true_or, Bool.or_true, if_true]
       norm_num)

/-- Witness for C7 at a concrete page with all four signals. -/
theorem C7_meta_tags_witness :
    (metaCheckOf c7WitnessHtml {}).score = 100 ∧
      (metaCheckOf c7WitnessHtml {}).status = Status.pass :=
  (C7_meta_tags c7WitnessHtml {}).2.2 (by decide) (by decide) (by decide) (by decide) (by decide)

/-- C8: an llms.txt body is accepted only when its length exceeds 10 and
    it looks like neither an HTML document nor a 404 / not-found page;
    the body `"<html><body>404 Not Found</body></html>"` is never
    accepted even on a 2xx response, and a valid body yields score 100
    with status pass. -/
theorem C8_llms_validity (fn : String) (ok : Bool) (body : String) :
    isValidLlms body =
      (decide (10 < body.length) && !looksLikeHtmlDoc body && !looksLikeNotFound body) ∧
    (llmsCheckFold [(fn, ok, body)]).score = (if ok && isValidLlms body then 100 else 0) ∧
    (llmsCheckFold [(fn, ok, body)]).status =
      (if ok && isValidLlms body then Status.pass else Status.fail) ∧
    isValidLlms c8BadBody = false ∧
    (llmsCheckFold [("llms.txt", true, c8BadBody)]).score = 0 := by
  refine ⟨?_, ?_, ?_, by decide, ?_⟩
  · simp [isValidLlms, looksLikeHtmlDoc, looksLikeNotFound, Bool.and_assoc]
  · simp only [llmsCheckFold, List.foldl_cons, List.foldl_nil]
    split_ifs <;> rfl
  · simp only [llmsCheckFold, List.foldl_cons, List.foldl_nil]
    split_ifs <;> rfl
  · simp [llmsCheckFold, llmsDefaultCheck, show isValidLlms c8BadBody = false from by decide]

theorem buildCandidates_decomp (urls : List String) (cleanUrl : String) :
    ∃ rest, buildCandidates urls cleanUrl = urls ++ rest ∧
      ∀ u ∈ rest, u ∈ commonSitemapLocations cleanUrl := by
  unfold buildCandidates
  generalize commonSitemapLocations cleanUrl = cs
  induction cs generalizing urls with
  | nil => exact ⟨[], by simp, by simp⟩
  | cons cHead cTail ih =>
    simp only [List.foldl_cons]
    by_cases hmem : urls.contains cHead
    · rw [if_pos hmem]
      obtain ⟨rest, hr, hm⟩ := ih urls
      exact ⟨rest, hr, fun u hu => List.mem_cons_of_mem _ (hm u hu)⟩
    · rw [if_neg hmem]
      obtain ⟨rest, hr, hm⟩ := ih (urls ++ [cHead])
      refine ⟨cHead :: rest, by rw [hr]; simp, ?_⟩
      intro u hu
      rcases List.mem_cons.mp hu with rfl | hu
      · exact List.mem_cons_self _ _
      · exact List.mem_cons_of_mem _ (hm u hu)

/-- C9: on a 2xx robots.txt body the score is 60×(user-agent indicator)
    + 40×(sitemap-directive indicator); the body
    `"User-agent: *\nSitemap: https://x.com/sitemap.xml"` scores 100 and
    yields exactly that sitemap URL; and every robots-derived sitemap URL
    precedes the well-known fallback locations in the de-duplicated
    candidate list. -/
theorem C9_robots_and_sitemap_order (body : String) (urls : List String) (cleanUrl : String) :
    robotsScoreOf body =
      60 * (if hasUserAgentLine body then (1 : ℚ) else 0) +
      40 * (if !(extractSitemapUrls body).isEmpty then (1 : ℚ) else 0) ∧
    robotsScoreOf c9RobotsBody = 100 ∧
    extractSitemapUrls c9RobotsBody = ["https://x.com/sitemap.xml"] ∧
    (∃ rest, buildCandidates urls cleanUrl = urls ++ rest ∧
      ∀ u ∈ rest, u ∈ commonSitemapLocations cleanUrl) := by
  refine ⟨?_, ?_, by decide, buildCandidates_decomp urls cleanUrl⟩
  · unfold robotsScoreOf
    split_ifs <;> norm_num
  · have hu : hasUserAgentLine c9RobotsBody = true := by decide
    have he : (extractSitemapUrls c9RobotsBody).isEmpty = false := by decide
    unfold robotsScoreOf
    simp only [hu, he]
    norm_num

/-- C10: for every metric id (unknown ids included) and every
    issues/data input, the recommendation generator returns a non-empty
    recommendation and a non-empty list of action items. -/
theorem C10_recommendations_nonempty (checkId : String) (issues : RecIssues) (data : RecData) :
    (getSpecificRecommendations checkId issues data).recommendation ≠ "" ∧
    (getSpecificRecommendations checkId issues data).actionItems ≠ [] := by
  unfold getSpecificRecommendations
  by_cases h01 : checkId = "heading-structure"
  · rw [if_pos h01]
    split_ifs <;> exact ⟨by simp, by simp⟩
  rw [if_neg h01]
  by_cases h02 : checkId = "readability"
  · rw [if_pos h02]
    split_ifs <;> exact ⟨by decide, by decide⟩
  rw [if_neg h02]
  by_cases h03 : checkId = "meta-tags"
  · rw [if_pos h03]
    exact ⟨by simp, List.ne_nil_of_mem
      (a := "Include Open Graph tags for better social sharing")
      (List.mem_filter.mpr ⟨by simp, by decide⟩)⟩
  rw [if_neg h03]
  by_cases h04 : checkId = "semantic-html"
  · rw [if_pos h04]; exact ⟨by decide, by decide⟩
  rw [if_neg h04]
  by_cases h05 : checkId = "accessibility"
  · rw [if_pos h05]
    exact ⟨by simp, List.ne_nil_of_mem
      (a := "Add ARIA labels to interactive elements")
      (List.mem_filter.mpr ⟨by simp, by decide⟩)⟩
  rw [if_neg h05]
  by_cases h06 : checkId = "robots-txt"
  · rw [if_pos h06]; exact ⟨by decide, by decide⟩
  rw [if_neg h06]
  by_cases h07 : checkId = "sitemap"
  · rw [if_pos h07]; exact ⟨by decide, by decide⟩
  rw [if_neg h07]
  by_cases h08 : checkId = "llms-txt"
  · rw [if_pos h08]; exact ⟨by decide, by decide⟩
  rw [if_neg h08]
  by_cases h09 : checkId = "faq-structure"
  · rw [if_pos h09]; split_ifs <;> exact ⟨by decide, by decide⟩
  rw [if_neg h09]
  by_cases h10 : checkId = "content-structure"
  · rw [if_pos h10]; split_ifs <;> exact ⟨by decide, by decide⟩
  rw [if_neg h10]
  by_cases h11 : checkId = "topical-authority"
  · rw [if_pos h11]; split_ifs <;> exact ⟨by decide, by decide⟩
  rw [if_neg h11]
  exact ⟨by decide, by decide⟩


theorem wf01 : weightFor "llms-txt" = 0.3 := rfl
theorem wf02 : weightFor "robots-txt" = 0.8 := rfl
theorem wf03 : weightFor "sitemap" = 0.7 := rfl
theorem wf04 : weightFor "heading-structure" = 1.4 := rfl
theorem wf05 : weightFor "readability" = 1.5 := rfl
theorem wf06 : weightFor "meta-tags" = 1.2 := rfl
theorem wf07 : weightFor "semantic-html" = 1.0 := rfl
theorem wf08 : weightFor "accessibility" = 0.9 := rfl
theorem wf09 : weightFor "faq-structure" = 1.3 := rfl
theorem wf10 : weightFor "content-structure" = 1.1 := rfl
theorem wf11 : weightFor "topical-authority" = 1.2 := rfl

theorem cs01 : contentSignalIds.contains "llms-txt" = false := rfl
theorem cs02 : contentSignalIds.contains "robots-txt" = false := rfl
theorem cs03 : contentSignalIds.contains "sitemap" = false := rfl
theorem cs04 : contentSignalIds.contains "heading-structure" = true := rfl
theorem cs05 : contentSignalIds.contains "readability" = true := rfl
theorem cs06 : contentSignalIds.contains "meta-tags" = true := rfl
theorem cs07 : contentSignalIds.contains "semantic-html" = false := rfl
theorem cs08 : contentSignalIds.contains "accessibility" = false := rfl
theorem cs09 : contentSignalIds.contains "faq-structure" = true := rfl
theorem cs10 : contentSignalIds.contains "content-structure" = false := rfl
theorem cs11 : contentSignalIds.contains "topical-authority" = true := rfl

theorem overallScoreOf_eq (l : List CheckResult) (domain : String) (b : ℚ) (n : ℕ)
    (anyb : Bool)
    (hb : weightedSum l / totalWeight l = b)
    (hn : (List.filter
      (fun cc => contentSignalIds.contains cc.id && decide ((60 : ℚ) ≤ cc.score)) l).length = n)
    (ha : (List.any l (fun cc => decide ((80 : ℚ) ≤ cc.score))) = anyb) :
    overallScoreOf l domain =
      min 100
        ((if (if 3 ≤ n then jsRound b + 15 else if 2 ≤ n then jsRound b + 10 else jsRound b)
              < 35 && anyb then 35
          else if 3 ≤ n then jsRound b + 15 else if 2 ≤ n then jsRound b + 10 else jsRound b) +
          getDomainReputationBonus domain) := by
  simp only [overallScoreOf]
  rw [hb, hn, ha]

/-- C2: over the eleven fixed metrics the aggregator computes
    `base = round(weighted sum / total weight)` with the listed weights,
    adds 15 (resp. 10) when at least 3 (resp. 2) of the five
    content-signal metrics score at least 60, raises a base below 35 to
    35 when some check scores at least 80, and returns
    `min(100, base + reputation bonus)`; in particular, with every check
    at exactly 50 the result is 50 plus the domain reputation bonus. -/
theorem C2_aggregator (lq ro si h r m se a f c t : ℚ) (domain : String) :
    overallScoreOf
      [mkC "llms-txt" lq, mkC "robots-txt" ro, mkC "sitemap" si,
       mkC "heading-structure" h, mkC "readability" r, mkC "meta-tags" m,
       mkC "semantic-html" se, mkC "accessibility" a, mkC "faq-structure" f,
       mkC "content-structure" c, mkC "topical-authority" t] domain =
      claimAggregate lq ro si h r m se a f c t domain ∧
    overallScoreOf
      [mkC "llms-txt" 50, mkC "robots-txt" 50, mkC "sitemap" 50,
       mkC "heading-structure" 50, mkC "readability" 50, mkC "meta-tags" 50,
       mkC "semantic-html" 50, mkC "accessibility" 50, mkC "faq-structure" 50,
       mkC "content-structure" 50, mkC "topical-authority" 50] domain =
      50 + getDomainReputationBonus domain := by
  constructor
  · have harg : weightedSum
        [mkC "llms-txt" lq, mkC "robots-txt" ro, mkC "sitemap" si,
         mkC "heading-structure" h, mkC "readability" r, mkC "meta-tags" m,
         mkC "semantic-html" se, mkC "accessibility" a, mkC "faq-structure" f,
         mkC "content-structure" c, mkC "topical-authority" t] /
        totalWeight
        [mkC "llms-txt" lq, mkC "robots-txt" ro, mkC "sitemap" si,
         mkC "heading-structure" h, mkC "readability" r, mkC "meta-tags" m,
         mkC "semantic-html" se, mkC "accessibility" a, mkC "faq-structure" f,
         mkC "content-structure" c, mkC "topical-authority" t] =
        (r * 1.5 + h * 1.4 + f * 1.3 + m * 1.2 + t * 1.2 + c * 1.1 +
          se * 1.0 + a * 0.9 + ro * 0.8 + si * 0.7 + lq * 0.3) /
        (1.5 + 1.4 + 1.3 + 1.2 + 1.2 + 1.1 + 1.0 + 0.9 + 0.8 + 0.7 + 0.3) := by
      simp only [weightedSum, totalWeight, mkC, wf01, wf02, wf03, wf04, wf05, wf06, wf07,
        wf08, wf09, wf10, wf11]
      norm_num
      ring_nf
    have hcnt : (List.filter
        (fun cc => contentSignalIds.contains cc.id && decide ((60 : ℚ) ≤ cc.score))
        [mkC "llms-txt" lq, mkC "robots-txt" ro, mkC "sitemap" si,
         mkC "heading-structure" h, mkC "readability" r, mkC "meta-tags" m,
         mkC "semantic-html" se, mkC "accessibility" a, mkC "faq-structure" f,
         mkC "content-structure" c, mkC "topical-authority" t]).length =
        ((if 60 ≤ r then 1 else 0) + (if 60 ≤ h then 1 else 0) +
         (if 60 ≤ m then 1 else 0) + (if 60 ≤ f then 1 else 0) +
         (if 60 ≤ t then 1 else 0) : ℕ) := by
      rw [← List.countP_eq_length_filter]
      simp only [List.countP_cons, List.countP_nil, mkC, cs01, cs02, cs03, cs04, cs05, cs06,
        cs07, cs08, cs09, cs10, cs11, Bool.false_and, Bool.true_and, decide_eq_true_eq]
      simp only [Bool.false_eq_true, if_false, Nat.zero_add, Nat.add_zero]
      generalize (if 60 ≤ h then 1 else 0 : ℕ) = x1
      generalize (if 60 ≤ r then 1 else 0 : ℕ) = x2
      generalize (if 60 ≤ m then 1 else 0 : ℕ) = x3
      generalize (if 60 ≤ f then 1 else 0 : ℕ) = x4
      generalize (if 60 ≤ t then 1 else 0 : ℕ) = x5
      omega
    have hany : (List.any
        [mkC "llms-txt" lq, mkC "robots-txt" ro, mkC "sitemap" si,
         mkC "heading-structure" h, mkC "readability" r, mkC "meta-tags" m,
         mkC "semantic-html" se, mkC "accessibility" a, mkC "faq-structure" f,
         mkC "content-structure" c, mkC "topical-authority" t]
        (fun cc => decide ((80 : ℚ) ≤ cc.score))) =
        (decide (80 ≤ lq) || decide (80 ≤ ro) || decide (80 ≤ si) ||
          decide (80 ≤ h) || decide (80 ≤ r) || decide (80 ≤ m) || decide (80 ≤ se) ||
          decide (80 ≤ a) || decide (80 ≤ f) || decide (80 ≤ c) || decide (80 ≤ t)) := by
      simp only [List.any_cons, List.any_nil, mkC, Bool.or_false, Bool.or_assoc]
    refine (overallScoreOf_eq _ domain _ _ _ harg hcnt hany).trans ?_
    simp only [claimAggregate]
  · have hb : weightedSum
        [mkC "llms-txt" 50, mkC "robots-txt" 50, mkC "sitemap" 50,
         mkC "heading-structure" 50, mkC "readability" 50, mkC "meta-tags" 50,
         mkC "semantic-html" 50, mkC "accessibility" 50, mkC "faq-structure" 50,
         mkC "content-structure" 50, mkC "topical-authority" 50] /
        totalWeight
        [mkC "llms-txt" 50, mkC "robots-txt" 50, mkC "sitemap" 50,
         mkC "heading-structure" 50, mkC "readability" 50, mkC "meta-tags" 50,
         mkC "semantic-html" 50, mkC "accessibility" 50, mkC "faq-structure" 50,
         mkC "content-structure" 50, mkC "topical-authority" 50] = (50 : ℚ) := by
      simp only [weightedSum, totalWeight, mkC, wf01, wf02, wf03, wf04, wf05, wf06, wf07,
        wf08, wf09, wf10, wf11]
      norm_num
    have h60 : ((60 : ℚ) ≤ 50) = False := eq_false (by norm_num)
    have h80 : ((80 : ℚ) ≤ 50) = False := eq_false (by norm_num)
    have hn : (List.filter
        (fun cc => contentSignalIds.contains cc.id && decide ((60 : ℚ) ≤ cc.score))
        [mkC "llms-txt" 50, mkC "robots-txt" 50, mkC "sitemap" 50,
         mkC "heading-structure" 50, mkC "readability" 50, mkC "meta-tags" 50,
         mkC "semantic-html" 50, mkC "accessibility" 50, mkC "faq-structure" 50,
         mkC "content-structure" 50, mkC "topical-authority" 50]).length = 0 := by
      rw [← List.countP_eq_length_filter]
      simp only [List.countP_cons, List.countP_nil, mkC, cs01, cs02, cs03, cs04, cs05, cs06,
        cs07, cs08, cs09, cs10, cs11, Bool.false_and, Bool.true_and, h60, decide_False]
      simp only [Bool.false_eq_true, if_false, Nat.add_zero]
    have ha : (List.any
        [mkC "llms-txt" 50, mkC "robots-txt" 50, mkC "sitemap" 50,
         mkC "heading-structure" 50, mkC "readability" 50, mkC "meta-tags" 50,
         mkC "semantic-html" 50, mkC "accessibility" 50, mkC "faq-structure" 50,
         mkC "content-structure" 50, mkC "topical-authority" 50]
        (fun cc => decide ((80 : ℚ) ≤ cc.score))) = false := by
      simp only [List.any_cons, List.any_nil, mkC, h80, decide_False, Bool.or_false]
    rw [overallScoreOf_eq _ domain 50 0 false hb hn ha]
    have hj : jsRound 50 = 50 := by
      unfold jsRound
      norm_num
    rw [hj]
    norm_num
    have h1 := repBonus_nonneg domain
    have h2 := repBonus_le domain
    omega
end AiReadiness
